import Mathlib

/-!
# Verification of the AI crime-pattern analysis engine

A shallow embedding, in Lean 4, of the crime-pattern analysis service
(`AIAnalysisService` in `config/config.js` of the `AI_Crime_Main` repository),
together with theorems settling the frozen specification claims about it.

Modelling conventions:
* JavaScript numbers are modelled as `ℚ` (the analysis code only performs
  field arithmetic, `Math.min`/`Math.max` and comparisons on them);
  timestamps (`Date.getTime()`, milliseconds since the epoch) as `Int`.
* A JavaScript object used as a dictionary is modelled as an insertion-ordered
  association list; `Object.entries` iteration order (canonical array-index
  keys first, ascending, then the remaining keys in insertion order) is
  modelled by `jsEntries`.
* `Array.prototype.sort` with a consistent comparator is, per the ECMAScript
  specification, a stable sort; it is modelled by the stable insertion sort
  `sortLe` below.  `Array.prototype.sort` *without* a comparator sorts by the
  elements' decimal string representations (`jsDefaultSortInt`).
* `async` functions that perform no failing awaits are modelled as pure
  functions; a thrown `TypeError` (claim C6) is modelled with `Except`.
* The database fetch `getFilteredIncidents` belongs to the external incident
  store; the embedding takes the already-filtered incident list as input,
  with the wall-clock instant `new Date()` passed explicitly as `now`.
-/

namespace CrimeAnalysis

open List

/-! ## JavaScript string primitives

Kernel-executable counterparts of the string operations the source uses
(`String.prototype.toLowerCase`, `trim`, and the lexicographic code-unit
ordering that `Array.prototype.sort` applies to default (stringified) keys).
All strings appearing in incident data are ASCII, for which `Char.toLower`
agrees with JavaScript `toLowerCase`. -/

/-- JavaScript `String.prototype.toLowerCase` (ASCII range). -/
def jsToLowerCase (s : String) : String := ⟨s.data.map Char.toLower⟩

/-- Drop leading whitespace characters. -/
def dropLeadingWs : List Char → List Char
  | [] => []
  | c :: cs => if c.isWhitespace then dropLeadingWs cs else c :: cs

/-- JavaScript `String.prototype.trim`: strip whitespace from both ends. -/
def jsTrim (s : String) : String :=
  ⟨(dropLeadingWs (dropLeadingWs s.data.reverse).reverse)⟩

/-- Lexicographic `≤` on UTF-16 code units, restricted to the code points the
incident data uses; this is the order JavaScript's default sort comparator
induces on strings. -/
def charListLe : List Char → List Char → Bool
  | [], _ => true
  | _ :: _, [] => false
  | a :: as, b :: bs => if a = b then charListLe as bs else decide (a < b)

/-- String `≤` as compared by JavaScript's default sort comparator. -/
def jsStrLe (a b : String) : Bool := charListLe a.data b.data

/-! ## Stable sorting

`Array.prototype.sort(cmp)` with a consistent comparator `cmp` is specified to
be a stable sort with respect to the total preorder `a ≼ b ↔ cmp(a,b) ≤ 0`.
A stable sort of a list with respect to a total preorder is unique, so any
stable sorting algorithm is a faithful model; we use insertion sort, which the
kernel can evaluate on concrete inputs. -/

/-- Insert `x` into `l`, before the first element `y` with `le x y`.  When all
elements key-equal to `x` satisfy `le x ·` mutually, this places `x` after
every earlier key-equal element, which is what stability requires. -/
def insertLe (le : α → α → Bool) (x : α) : List α → List α
  | [] => [x]
  | y :: ys => if le x y then x :: y :: ys else y :: insertLe le x ys

/-- Stable insertion sort with respect to the boolean preorder `le`. -/
def sortLe (le : α → α → Bool) : List α → List α
  | [] => []
  | x :: xs => insertLe le x (sortLe le xs)

/-! ## JavaScript object iteration order

The analysis code stores its groups and histograms in plain objects and
iterates them with `Object.entries`.  ECMAScript fixes that order: keys that
are canonical array indices come first in ascending numeric order, the
remaining (string) keys follow in insertion order. -/

/-- Parse a non-empty all-digit character list as a decimal number. -/
def decDigitsToNat? (cs : List Char) : Option Nat :=
  if cs ≠ [] && cs.all Char.isDigit then
    some (cs.foldl (fun n c => n * 10 + (c.toNat - '0'.toNat)) 0)
  else none

/-- Whether a string is a canonical array-index property key: the canonical
decimal representation of an integer `0 ≤ n < 2^32 - 1`. -/
def isArrayIndexKey (s : String) : Bool :=
  match decDigitsToNat? s.data with
  | some n => toString n == s && n < 4294967295
  | none => false

/-- Numeric value of an array-index key (junk `0` on other strings). -/
def arrayIndexVal (s : String) : Nat := (decDigitsToNat? s.data).getD 0

/-- `Object.entries` iteration order over an object whose properties were
created in the order of the association list `l`. -/
def jsEntries (l : List (String × α)) : List (String × α) :=
  sortLe (fun a b => decide (arrayIndexVal a.1 ≤ arrayIndexVal b.1))
    (l.filter fun e => isArrayIndexKey e.1)
  ++ l.filter fun e => !isArrayIndexKey e.1

/-! ## Data model -/

/-- The observations of a JavaScript `Date` that the analysis service reads:
the epoch-millisecond value (`getTime`) and the local calendar observations
`getHours`/`getDay`/`getMonth`.  JavaScript derives the latter from the
timestamp and the host time zone; the embedding carries them as fields so that
no particular time zone has to be fixed, keeping only their ranges. -/
structure DateTime where
  getTime : Int
  getHours : Fin 24
  getDay : Fin 7
  getMonth : Fin 12
  deriving DecidableEq, Repr

/-- An incident record as read by the analysis service (`inc._id`, `inc.type`,
`inc.severity`, `inc.location`, `inc.dateTime`). -/
structure Incident where
  _id : Nat
  type : String
  severity : String
  location : String
  dateTime : DateTime
  deriving DecidableEq, Repr

/-- A value inside a pattern's detector-specific `statistics` object. -/
inductive StatVal where
  | num (q : ℚ)
  | str (s : String)
  | dist (d : List (String × Nat))
  deriving DecidableEq, Repr

/-- A detected pattern.  The fields of the JS pattern objects that no claim
reads (`coordinates`, `timePattern`, `recommendations`) are omitted from the
embedding; all scoring-relevant fields are kept.  Pattern objects without a
`subtype` property are modelled with `subtype = none`. -/
structure Pattern where
  type : String
  subtype : Option String := none
  description : String
  confidence : ℚ
  location : String
  statistics : List (String × StatVal)
  relatedIncidents : List Nat
  riskLevel : String
  deriving DecidableEq, Repr

/-! ## Grouping helpers (source lines 412–432) -/

/-- Append `x` to the group keyed `key`, creating the group at the end if the
key is absent — the effect of one step of the `reduce` in `groupByLocation` /
`groupByCrimeType` on the accumulating object. -/
def insertGroup (key : String) (x : α) :
    List (String × List α) → List (String × List α)
  | [] => [(key, [x])]
  | (k, l) :: rest =>
    if k = key then (k, l ++ [x]) :: rest else (k, l) :: insertGroup key x rest

/-- Build the insertion-ordered groups object of a `reduce`-style group-by. -/
def jsGroupBy (key : α → String) (l : List α) : List (String × List α) :=
  l.foldl (fun groups x => insertGroup (key x) x groups) []

/-- `groupByLocation` (source line 412): the key is
`incident.location.toLowerCase().trim()`. -/
def groupByLocation (incidents : List Incident) : List (String × List Incident) :=
  jsGroupBy (fun inc => jsTrim (jsToLowerCase inc.location)) incidents

/-- `groupByCrimeType` (source line 423): the key is `incident.type`. -/
def groupByCrimeType (incidents : List Incident) : List (String × List Incident) :=
  jsGroupBy (fun inc => inc.type) incidents

/-! ## Mathematical analysis helpers (source lines 434–464, 660–664) -/

/-- The inline `severityMap = { low: 1, medium: 2, high: 3, critical: 4 }`
lookup with the `|| 1` fallback for unmapped severities (source line 442). -/
def severityMap (severity : String) : ℚ :=
  if severity = "low" then 1
  else if severity = "medium" then 2
  else if severity = "high" then 3
  else if severity = "critical" then 4
  else 1

/-- `calculateAverageSeverity` (source line 441). -/
def calculateAverageSeverity (incidents : List Incident) : ℚ :=
  let total := incidents.foldl (fun sum inc => sum + severityMap inc.severity) 0
  total / incidents.length

/-- `Array.prototype.sort()` *without* a comparator, as applied to the numeric
timestamps in `calculateTimeSpan`/`calculateTimeSpread`: ECMAScript sorts the
elements by their decimal string representations. -/
def jsDefaultSortInt (l : List Int) : List Int :=
  sortLe (fun a b => jsStrLe (toString a) (toString b)) l

/-- `calculateTimeSpan` (source line 660): sort the epoch-millisecond values
with the default (string) comparator and subtract the first from the last. -/
def calculateTimeSpan (incidents : List Incident) : Int :=
  if incidents.length < 2 then 0
  else
    let times := jsDefaultSortInt (incidents.map (fun inc => inc.dateTime.getTime))
    times.getLast?.getD 0 - times.headD 0

/-- `calculateTimeSpread` (source line 447) — its body is identical, token for
token, to `calculateTimeSpan`. -/
def calculateTimeSpread (incidents : List Incident) : Int :=
  calculateTimeSpan incidents

/-- `calculateCrimeDensity` (source line 435). -/
def calculateCrimeDensity (incidents : List Incident) : ℚ :=
  let timeSpan := calculateTimeSpan incidents
  let daysSpan := max 1 ((timeSpan : ℚ) / (1000 * 60 * 60 * 24))
  (incidents.length : ℚ) / daysSpan

/-- The named factors passed to `calculateHotspotConfidence`. -/
structure HotspotFactors where
  incidentCount : Nat
  density : ℚ
  severity : ℚ
  timeSpread : Int
  deriving DecidableEq, Repr

/-- `calculateHotspotConfidence` (source line 453). -/
def calculateHotspotConfidence (factors : HotspotFactors) : ℚ :=
  let countScore := min 1 ((factors.incidentCount : ℚ) / 10)
  let densityScore := min 1 (factors.density / 2)
  let severityScore := factors.severity / 4
  let timeScore :=
    if (0 : Int) < factors.timeSpread then
      min 1 ((factors.timeSpread : ℚ) / (30 * 24 * 60 * 60 * 1000))
    else 0
  countScore * 0.4 + densityScore * 0.3 + severityScore * 0.2 + timeScore * 0.1

/-! ## Risk assessment helpers (source lines 720–748) -/

/-- `categorizeRiskLevel` (source line 726). -/
def categorizeRiskLevel (score : ℚ) : String :=
  if 0.7 ≤ score then "high"
  else if 0.5 ≤ score then "medium"
  else "low"

/-- `assessRiskLevel` (source line 721). -/
def assessRiskLevel (confidence severity : ℚ) (incidentCount : Nat) : String :=
  categorizeRiskLevel
    (confidence * 0.4 + severity / 4 * 0.4 + min 1 ((incidentCount : ℚ) / 10) * 0.2)

/-- The filter `daysDiff = (now - inc.dateTime) / (1000*60*60*24); daysDiff ≤
days`, shared by `getRecentActivityLevel` (7 days, source line 742) and
`predictFutureHotspots` (14 days, source line 305). -/
def recentWithinDays (now : Int) (days : ℚ) (incidents : List Incident) :
    List Incident :=
  incidents.filter fun inc =>
    decide (((now - inc.dateTime.getTime : Int) : ℚ) / (1000 * 60 * 60 * 24) ≤ days)

/-- `getRecentActivityLevel` (source line 740): share of incidents from the
last 7 days, scaled by 2 and capped at 1. -/
def getRecentActivityLevel (now : Int) (incidents : List Incident) : ℚ :=
  let recentIncidents := recentWithinDays now 7 incidents
  min 1 ((recentIncidents.length : ℚ) / incidents.length * 2)

/-- `calculateRiskScore` (source line 732). -/
def calculateRiskScore (now : Int) (incidents : List Incident) : ℚ :=
  let severityScore := calculateAverageSeverity incidents / 4
  let frequencyScore := min 1 ((incidents.length : ℚ) / 10)
  let recentActivityScore := getRecentActivityLevel now incidents
  severityScore * 0.4 + frequencyScore * 0.4 + recentActivityScore * 0.2

/-! ## Distribution helpers (source lines 631–643, 751–755) -/

/-- One step of the `reduce` that builds a `{ key: count }` histogram. -/
def bumpCount (key : String) : List (String × Nat) → List (String × Nat)
  | [] => [(key, 1)]
  | (k, c) :: rest =>
    if k = key then (k, c + 1) :: rest else (k, c) :: bumpCount key rest

/-- `getCrimeTypeDistribution` (source line 631). -/
def getCrimeTypeDistribution (incidents : List Incident) : List (String × Nat) :=
  incidents.foldl (fun dist inc => bumpCount inc.type dist) []

/-- `getSeverityDistribution` (source line 638). -/
def getSeverityDistribution (incidents : List Incident) : List (String × Nat) :=
  incidents.foldl (fun dist inc => bumpCount inc.severity dist) []

/-- `entries.reduce((a, b) => a.count > b.count ? a : b)`: JavaScript `reduce`
without an initial value, `none` on the empty list (where JS would throw). -/
def reduceMaxEntry : List (α × Nat) → Option (α × Nat)
  | [] => none
  | e :: es => some (es.foldl (fun a b => if a.2 > b.2 then a else b) e)

/-- `classifyHotspotType` (source line 751).  The `""` branch is unreachable
from the detectors, which only classify non-empty groups (on `[]` the JS
`reduce` would throw a `TypeError`). -/
def classifyHotspotType (incidents : List Incident) : String :=
  match reduceMaxEntry (jsEntries (getCrimeTypeDistribution incidents)) with
  | some dominantType => dominantType.1
  | none => ""

/-! ## Hotspot detector (source lines 146–189) -/

/-- The hotspot confidence of a location group: `calculateHotspotConfidence`
applied to the factors computed at source lines 152–162. -/
def hotspotConfidenceOf (locationIncidents : List Incident) : ℚ :=
  calculateHotspotConfidence
    { incidentCount := locationIncidents.length,
      density := calculateCrimeDensity locationIncidents,
      severity := calculateAverageSeverity locationIncidents,
      timeSpread := calculateTimeSpread locationIncidents }

/-- The hotspot pattern object pushed at source line 165. -/
def mkHotspotPattern (location : String) (locationIncidents : List Incident) :
    Pattern :=
  { type := "hotspot",
    subtype := some (classifyHotspotType locationIncidents),
    description := s!"Crime hotspot detected at {location}",
    confidence := hotspotConfidenceOf locationIncidents,
    location,
    statistics :=
      [("incidentCount", .num (locationIncidents.length : ℚ)),
       ("density", .num (calculateCrimeDensity locationIncidents)),
       ("averageSeverity", .num (calculateAverageSeverity locationIncidents)),
       ("timeSpread", .num (calculateTimeSpread locationIncidents : ℚ)),
       ("crimeTypes", .dist (getCrimeTypeDistribution locationIncidents))],
    relatedIncidents := locationIncidents.map (fun inc => inc._id),
    riskLevel := assessRiskLevel (hotspotConfidenceOf locationIncidents)
      (calculateAverageSeverity locationIncidents) locationIncidents.length }

/-- `detectCrimeHotspots` (source line 146). -/
def detectCrimeHotspots (incidents : List Incident) : List Pattern :=
  (jsEntries (groupByLocation incidents)).filterMap fun e =>
    if 3 ≤ e.2.length then
      if 0.4 ≤ hotspotConfidenceOf e.2 then some (mkHotspotPattern e.1 e.2)
      else none
    else none

/-! ## Temporal pattern detector (source lines 194–210, 467–581) -/

/-- `Number.prototype.toFixed(1)` on the non-negative percentage values the
temporal detectors format: round to one decimal place (half up) and print.
The source applies it only to values of the form `count/total·100`. -/
def jsToFixed1 (q : ℚ) : String :=
  let n : Int := ⌊q * 10 + 1 / 2⌋
  toString (n / 10) ++ "." ++ toString (n % 10)

/-- The empty string (JS `''`), named so it can appear inside interpolated
descriptions. -/
def strEmpty : String := ""

def dayNames : List String :=
  ["Sunday", "Monday", "Tuesday", "Wednesday", "Thursday", "Friday", "Saturday"]

def monthNames : List String :=
  ["January", "February", "March", "April", "May", "June",
   "July", "August", "September", "October", "November", "December"]

/-- Number of incidents whose `getHours()` equals `hour` — the value
`hourCounts[hour]` accumulated by the `forEach` at source line 471. -/
def hourCount (incidents : List Incident) (hour : Nat) : Nat :=
  (incidents.filter fun inc => (inc.dateTime.getHours).val == hour).length

/-- `Object.entries(hourCounts)`: hours are array-index keys, so iteration is
in ascending hour order, restricted to hours that occur. -/
def hourEntries (incidents : List Incident) : List (Nat × Nat) :=
  (List.range 24).filterMap fun hour =>
    if hourCount incidents hour ≠ 0 then some (hour, hourCount incidents hour) else none

/-- The comparator `([,a],[,b]) => b - a` as a boolean preorder: descending by
count, stable. -/
def countDescLe (a b : Nat × Nat) : Bool := decide (b.2 ≤ a.2)

/-- The hourly pattern confidence `Math.min(0.9, count/total·4)`. -/
def hourlyConfidence (incidents : List Incident) (count : Nat) : ℚ :=
  min 0.9 ((count : ℚ) / incidents.length * 4)

/-- The hourly pattern object pushed at source line 484. -/
def mkHourlyPattern (incidents : List Incident) (hour count : Nat) : Pattern :=
  { type := "temporal-pattern", subtype := some "hourly",
    description := s!"Peak crime activity at {hour}:00 hour",
    confidence := hourlyConfidence incidents count,
    location := "Multiple locations",
    statistics :=
      [("peakHour", .num (hour : ℚ)),
       ("incidentCount", .num (count : ℚ)),
       ("percentage", .str (jsToFixed1 ((count : ℚ) / incidents.length * 100)))],
    relatedIncidents :=
      (incidents.filter fun inc => (inc.dateTime.getHours).val == hour).map
        (fun inc => inc._id),
    riskLevel :=
      if 0.7 < hourlyConfidence incidents count then "high"
      else if 0.5 < hourlyConfidence incidents count then "medium" else "low" }

/-- `detectHourlyPatterns` (source line 467). -/
def detectHourlyPatterns (incidents : List Incident) : List Pattern :=
  ((sortLe countDescLe (hourEntries incidents)).take 3).filterMap fun e =>
    if 3 ≤ e.2 then some (mkHourlyPattern incidents e.1 e.2) else none

/-- Number of incidents whose `getDay()` equals `day` (source line 511). -/
def dayCount (incidents : List Incident) (day : Nat) : Nat :=
  (incidents.filter fun inc => (inc.dateTime.getDay).val == day).length

/-- `Object.entries(dayCounts)` in ascending day order. -/
def dayEntries (incidents : List Incident) : List (Nat × Nat) :=
  (List.range 7).filterMap fun day =>
    if dayCount incidents day ≠ 0 then some (day, dayCount incidents day) else none

/-- The daily pattern confidence `Math.min(0.85, count/total·3)`. -/
def dailyConfidence (incidents : List Incident) (count : Nat) : ℚ :=
  min 0.85 ((count : ℚ) / incidents.length * 3)

/-- The daily pattern object pushed at source line 523. -/
def mkDailyPattern (incidents : List Incident) (day count : Nat) : Pattern :=
  { type := "temporal-pattern", subtype := some "daily",
    description := s!"Increased crime activity on {dayNames.getD day strEmpty}",
    confidence := dailyConfidence incidents count,
    location := "Multiple locations",
    statistics :=
      [("peakDay", .str (dayNames.getD day strEmpty)),
       ("incidentCount", .num (count : ℚ)),
       ("percentage", .str (jsToFixed1 ((count : ℚ) / incidents.length * 100)))],
    relatedIncidents :=
      (incidents.filter fun inc => (inc.dateTime.getDay).val == day).map
        (fun inc => inc._id),
    riskLevel :=
      if 0.7 < dailyConfidence incidents count then "high"
      else if 0.5 < dailyConfidence incidents count then "medium" else "low" }

/-- `detectDailyPatterns` (source line 506). -/
def detectDailyPatterns (incidents : List Incident) : List Pattern :=
  ((sortLe countDescLe (dayEntries incidents)).take 2).filterMap fun e =>
    if 3 ≤ e.2 then some (mkDailyPattern incidents e.1 e.2) else none

/-- Number of incidents whose `getMonth()` equals `month` (source line 551). -/
def monthCount (incidents : List Incident) (month : Nat) : Nat :=
  (incidents.filter fun inc => (inc.dateTime.getMonth).val == month).length

/-- `Object.entries(monthCounts)` in ascending month order. -/
def monthEntries (incidents : List Incident) : List (Nat × Nat) :=
  (List.range 12).filterMap fun month =>
    if monthCount incidents month ≠ 0 then some (month, monthCount incidents month) else none

/-- The seasonal pattern confidence `Math.min(0.8, count/total·2)`. -/
def seasonalConfidence (incidents : List Incident) (count : Nat) : ℚ :=
  min 0.8 ((count : ℚ) / incidents.length * 2)

/-- The seasonal pattern object pushed at source line 562. -/
def mkSeasonalPattern (incidents : List Incident) (month count : Nat) : Pattern :=
  { type := "temporal-pattern", subtype := some "seasonal",
    description := s!"Seasonal crime peak in {monthNames.getD month strEmpty}",
    confidence := seasonalConfidence incidents count,
    location := "Multiple locations",
    statistics :=
      [("peakMonth", .str (monthNames.getD month strEmpty)),
       ("incidentCount", .num (count : ℚ)),
       ("percentage", .str (jsToFixed1 ((count : ℚ) / incidents.length * 100)))],
    relatedIncidents :=
      (incidents.filter fun inc => (inc.dateTime.getMonth).val == month).map
        (fun inc => inc._id),
    riskLevel :=
      if 0.6 < seasonalConfidence incidents count then "medium" else "low" }

/-- `detectSeasonalPatterns` (source line 545).  On an empty input the JS
`reduce` would throw; the orchestrator only calls this with ≥ 3 incidents,
where `monthEntries` is non-empty and `reduceMaxEntry` returns `some`. -/
def detectSeasonalPatterns (incidents : List Incident) : List Pattern :=
  match reduceMaxEntry (monthEntries incidents) with
  | none => []
  | some maxMonth =>
    if 4 ≤ maxMonth.2 then [mkSeasonalPattern incidents maxMonth.1 maxMonth.2]
    else []

/-- `analyzeTemporalPatterns` (source line 194). -/
def analyzeTemporalPatterns (incidents : List Incident) : List Pattern :=
  detectHourlyPatterns incidents ++ detectDailyPatterns incidents ++
    detectSeasonalPatterns incidents

/-! ## Crime-series detector (source lines 215–252, 645–653, 816–819) -/

/-- `findCrimeClusters` (source line 646): a stub returning the whole input as
a single cluster. -/
def findCrimeClusters (incidents : List Incident) : List (List Incident) :=
  [incidents]

/-- `calculateSeriesConfidence` (source line 651). -/
def calculateSeriesConfidence (cluster : List Incident) : ℚ :=
  min 0.9 ((cluster.length : ℚ) / 5 * 0.8)

/-- `calculateGeographicSpread` (source line 816): stub. -/
def calculateGeographicSpread (cluster : List Incident) : ℚ := 1.0

/-- `detectEscalationPattern` (source line 817): stub. -/
def detectEscalationPattern (cluster : List Incident) : String := "stable"

/-- `assessSeriesRisk` (source line 819). -/
def assessSeriesRisk (cluster : List Incident) (confidence : ℚ) : String :=
  categorizeRiskLevel confidence

/-- The crime-series pattern object pushed at source line 228. -/
def mkSeriesPattern (crimeType : String) (cluster : List Incident) : Pattern :=
  { type := "crime-series", subtype := some crimeType,
    description := s!"Potential {crimeType} crime series detected",
    confidence := calculateSeriesConfidence cluster,
    location := "Multiple locations",
    statistics :=
      [("incidentCount", .num (cluster.length : ℚ)),
       ("timeSpan", .num ((calculateTimeSpan cluster : Int) : ℚ)),
       ("geographicSpread", .num (calculateGeographicSpread cluster)),
       ("escalationPattern", .str (detectEscalationPattern cluster))],
    relatedIncidents := cluster.map (fun inc => inc._id),
    riskLevel := assessSeriesRisk cluster (calculateSeriesConfidence cluster) }

/-- `detectCrimeSeries` (source line 215). -/
def detectCrimeSeries (incidents : List Incident) : List Pattern :=
  (jsEntries (groupByCrimeType incidents)).flatMap fun e =>
    if 3 ≤ e.2.length then
      (findCrimeClusters e.2).filterMap fun cluster =>
        if 3 ≤ cluster.length then
          if 0.5 ≤ calculateSeriesConfidence cluster then
            some (mkSeriesPattern e.1 cluster)
          else none
        else none
    else []

/-! ## Geographic cluster detector (source lines 257–298, 655–658, 820–827) -/

/-- The record built from each incident at source line 259 (the estimated
`coordinates` field is never read by any claim and is omitted). -/
structure ClusterItem where
  id : Nat
  location : String
  type : String
  severity : String
  dateTime : DateTime
  deriving DecidableEq, Repr

/-- `clusterByDistance` (source line 655): a stub returning the whole input as
one cluster, regardless of the distance threshold. -/
def clusterByDistance (locationData : List ClusterItem) (maxDistance : ℚ) :
    List (List ClusterItem) :=
  [locationData]

/-- `calculateClusterConfidence` (source line 820). -/
def calculateClusterConfidence (cluster : List ClusterItem) : ℚ :=
  min 0.8 ((cluster.length : ℚ) / 8)

/-- `calculateClusterCenter` (source line 821): stub. -/
def calculateClusterCenter (cluster : List ClusterItem) : String := "Central Area"

/-- `calculateClusterRadius` (source line 823): stub. -/
def calculateClusterRadius (cluster : List ClusterItem) : ℚ := 500

/-- `calculateClusterDensity` (source line 824). -/
def calculateClusterDensity (cluster : List ClusterItem) : ℚ :=
  (cluster.length : ℚ) / 1000

/-- `getClusterCrimeTypes` (source line 825): stub returning `{}`. -/
def getClusterCrimeTypes (cluster : List ClusterItem) : List (String × Nat) := []

/-- `assessClusterRisk` (source line 827). -/
def assessClusterRisk (cluster : List ClusterItem) (confidence : ℚ) : String :=
  categorizeRiskLevel confidence

/-- The geographic-cluster pattern object pushed at source line 276. -/
def mkClusterPattern (cluster : List ClusterItem) : Pattern :=
  { type := "geographic-cluster",
    description := "Geographic crime cluster identified",
    confidence := calculateClusterConfidence cluster,
    location := calculateClusterCenter cluster,
    statistics :=
      [("incidentCount", .num (cluster.length : ℚ)),
       ("radius", .num (calculateClusterRadius cluster)),
       ("density", .num (calculateClusterDensity cluster)),
       ("crimeTypes", .dist (getClusterCrimeTypes cluster))],
    relatedIncidents := cluster.map (fun item => item.id),
    riskLevel := assessClusterRisk cluster (calculateClusterConfidence cluster) }

/-- `performGeographicClustering` (source line 257). -/
def performGeographicClustering (incidents : List Incident) : List Pattern :=
  (clusterByDistance
      (incidents.map fun inc =>
        ({ id := inc._id, location := inc.location, type := inc.type,
           severity := inc.severity, dateTime := inc.dateTime } : ClusterItem))
      1000).filterMap fun cluster =>
    if 4 ≤ cluster.length then
      if 0.4 ≤ calculateClusterConfidence cluster then
        some (mkClusterPattern cluster)
      else none
    else none

/-! ## Predictive hotspot detector (source lines 303–335, 768–787, 828) -/

/-- The per-location trend record built by `analyzeTrends` (the `timePattern`
field is never read by any claim and is omitted). -/
structure Trend where
  currentCount : Nat
  isIncreasing : Bool
  confidence : ℚ
  growthRate : ℚ
  incidents : List Incident
  deriving DecidableEq, Repr

/-- `analyzeTrends` (source line 768): one trend per location group with ≥ 2
incidents; `isIncreasing` is hard-coded `true` and `growthRate` `0.1`. -/
def analyzeTrends (incidents : List Incident) : List (String × Trend) :=
  (jsEntries (groupByLocation incidents)).filterMap fun e =>
    if 2 ≤ e.2.length then
      some (e.1,
        { currentCount := e.2.length, isIncreasing := true,
          confidence := min 0.8 ((e.2.length : ℚ) / 5),
          growthRate := 0.1, incidents := e.2 })
    else none

/-- `assessPredictiveRisk` (source line 828). -/
def assessPredictiveRisk (trend : Trend) : String :=
  categorizeRiskLevel trend.confidence

/-- The predictive-hotspot pattern object pushed at source line 314. -/
def mkPredictivePattern (location : String) (trend : Trend) : Pattern :=
  { type := "predictive-hotspot",
    description := s!"Predicted future hotspot at {location}",
    confidence := trend.confidence * 0.8,
    location,
    statistics :=
      [("currentIncidents", .num (trend.currentCount : ℚ)),
       ("trendDirection", .str "increasing"),
       ("growthRate", .num trend.growthRate),
       ("predictionWindow", .str "7-14 days")],
    relatedIncidents := trend.incidents.map (fun inc => inc._id),
    riskLevel := assessPredictiveRisk trend }

/-- `predictFutureHotspots` (source line 303). -/
def predictFutureHotspots (now : Int) (incidents : List Incident) : List Pattern :=
  (jsEntries (analyzeTrends (recentWithinDays now 14 incidents))).filterMap fun e =>
    if e.2.isIncreasing && decide ((0.6 : ℚ) ≤ e.2.confidence) then
      some (mkPredictivePattern e.1 e.2)
    else none

/-! ## Area risk assessor (source lines 340–371) -/

/-- The risk-assessment pattern object pushed at source line 349. -/
def mkRiskPattern (now : Int) (location : String)
    (locationIncidents : List Incident) : Pattern :=
  { type := "risk-assessment",
    description :=
      s!"{categorizeRiskLevel (calculateRiskScore now locationIncidents)} risk area identified at {location}",
    confidence := min 0.9 (calculateRiskScore now locationIncidents + 0.1),
    location,
    statistics :=
      [("riskScore", .num (calculateRiskScore now locationIncidents)),
       ("riskLevel", .str (categorizeRiskLevel (calculateRiskScore now locationIncidents))),
       ("incidentCount", .num (locationIncidents.length : ℚ)),
       ("severityDistribution", .dist (getSeverityDistribution locationIncidents)),
       ("recentActivity", .num (getRecentActivityLevel now locationIncidents))],
    relatedIncidents := locationIncidents.map (fun inc => inc._id),
    riskLevel := categorizeRiskLevel (calculateRiskScore now locationIncidents) }

/-- `assessAreaRisk` (source line 340). -/
def assessAreaRisk (now : Int) (incidents : List Incident) : List Pattern :=
  (jsEntries (groupByLocation incidents)).filterMap fun e =>
    if 0.5 ≤ calculateRiskScore now e.2 then some (mkRiskPattern now e.1 e.2)
    else none

/-! ## Statistics and orchestration (source lines 72–141, 603–629, 789–813) -/

/-- The result of `generateBasicStats` (source line 603).  `timeRange.start`
is the last incident of the (timestamp-descending) filtered list, `.end` the
first; the embedding stores the two `Date` values. -/
structure BasicStats where
  totalIncidents : Nat
  timeRange : Option (DateTime × DateTime)
  crimeTypes : List (String × Nat)
  severityDistribution : List (String × Nat)
  deriving DecidableEq, Repr

/-- `generateBasicStats` (source line 603). -/
def generateBasicStats (incidents : List Incident) : BasicStats :=
  { totalIncidents := incidents.length,
    timeRange :=
      if 0 < incidents.length then
        match incidents.getLast?, incidents.head? with
        | some lastInc, some headInc => some (lastInc.dateTime, headInc.dateTime)
        | _, _ => none
      else none,
    crimeTypes := getCrimeTypeDistribution incidents,
    severityDistribution := getSeverityDistribution incidents }

/-- `calculateConfidenceDistribution` (source line 789), as (high, medium,
low) counters over the concatenated per-detector lists. -/
def calculateConfidenceDistribution (allPatterns : List Pattern) : Nat × Nat × Nat :=
  allPatterns.foldl
    (fun d pattern =>
      if 0.7 ≤ pattern.confidence then (d.1 + 1, d.2.1, d.2.2)
      else if 0.5 ≤ pattern.confidence then (d.1, d.2.1 + 1, d.2.2)
      else (d.1, d.2.1, d.2.2 + 1))
    (0, 0, 0)

/-- `calculateRiskDistribution` (source line 802). -/
def calculateRiskDistribution (allPatterns : List Pattern) : Nat × Nat × Nat :=
  allPatterns.foldl
    (fun d pattern =>
      if pattern.riskLevel = "high" then (d.1 + 1, d.2.1, d.2.2)
      else if pattern.riskLevel = "medium" then (d.1, d.2.1 + 1, d.2.2)
      else if pattern.riskLevel = "low" then (d.1, d.2.1, d.2.2 + 1)
      else d)
    (0, 0, 0)

/-- The extra fields `generateAdvancedStats` (source line 615) adds on top of
the basic statistics on a successful run. -/
structure AdvancedStats where
  patternsDetected : List (String × Nat)
  confidenceDistribution : Nat × Nat × Nat
  riskLevelDistribution : Nat × Nat × Nat
  deriving DecidableEq, Repr

/-- `generateAdvancedStats` (source line 615), split into its additional
fields; the spread `...generateBasicStats(incidents)` is carried separately in
`AnalysisResult.statistics`. -/
def generateAdvancedStats
    (hotspots temporalPatterns crimeSeries geographicClusters
      predictiveHotspots riskAssessment : List Pattern) : AdvancedStats :=
  let allPatterns := hotspots ++ temporalPatterns ++ crimeSeries ++
    geographicClusters ++ predictiveHotspots ++ riskAssessment
  { patternsDetected :=
      [("hotspots", hotspots.length),
       ("temporalPatterns", temporalPatterns.length),
       ("crimeSeries", crimeSeries.length),
       ("geographicClusters", geographicClusters.length),
       ("predictiveHotspots", predictiveHotspots.length),
       ("riskAssessments", riskAssessment.length)],
    confidenceDistribution := calculateConfidenceDistribution allPatterns,
    riskLevelDistribution := calculateRiskDistribution allPatterns }

/-- The `metadata` object of a successful run (source line 134). -/
structure Metadata where
  analysisDate : Int
  totalIncidents : Nat
  timeRange : String
  algorithmsUsed : List String
  deriving DecidableEq, Repr

/-- The result object of `runComprehensiveAnalysis`.  On the insufficient-data
path the JS result has only basic statistics and no metadata; a successful
result spreads basic and advanced statistics together and carries metadata. -/
structure AnalysisResult where
  success : Bool
  message : Option String
  patterns : List Pattern
  statistics : BasicStats
  advancedStatistics : Option AdvancedStats
  metadata : Option Metadata
  deriving DecidableEq, Repr

/-- The comparator at source line 119 (`b.confidence - a.confidence`, ties by
`b.relatedIncidents.length - a.relatedIncidents.length`) as the boolean
preorder `cmp(a,b) ≤ 0`. -/
def patternLe (a b : Pattern) : Bool :=
  if a.confidence = b.confidence then
    decide (b.relatedIncidents.length ≤ a.relatedIncidents.length)
  else
    decide (b.confidence ≤ a.confidence)

/-- The concatenation at source line 109 of the six detector outputs of one
run (the fields of the JS `analysisResults` object, in spread order). -/
def allDetectorPatterns (now : Int) (incidents : List Incident) : List Pattern :=
  detectCrimeHotspots incidents ++ analyzeTemporalPatterns incidents ++
    detectCrimeSeries incidents ++ performGeographicClustering incidents ++
    predictFutureHotspots now incidents ++ assessAreaRisk now incidents

/-- `runComprehensiveAnalysis` (source line 72), over the already-filtered
incident list (the `getFilteredIncidents` database query belongs to the
external incident store); `now` is the wall clock, `timeRange` the resolved
time-range tag and `minConfidence` the caller's threshold (JS default 0.5). -/
def runComprehensiveAnalysis (now : Int) (timeRange : String)
    (incidents : List Incident) (minConfidence : ℚ) : AnalysisResult :=
  if incidents.length < 3 then
    { success := false,
      message := some "Insufficient data for meaningful analysis",
      patterns := [],
      statistics := generateBasicStats incidents,
      advancedStatistics := none,
      metadata := none }
  else
    { success := true,
      message := none,
      patterns := sortLe patternLe
        ((allDetectorPatterns now incidents).filter fun pattern =>
          decide (minConfidence ≤ pattern.confidence)),
      statistics := generateBasicStats incidents,
      advancedStatistics := some (generateAdvancedStats
        (detectCrimeHotspots incidents) (analyzeTemporalPatterns incidents)
        (detectCrimeSeries incidents) (performGeographicClustering incidents)
        (predictFutureHotspots now incidents) (assessAreaRisk now incidents)),
      metadata := some
        { analysisDate := now,
          totalIncidents := incidents.length,
          timeRange,
          algorithmsUsed :=
            ["hotspots", "temporalPatterns", "crimeSeries",
             "geographicClusters", "predictiveHotspots", "riskAssessment"] } }

/-! ## Missing-location behaviour (claim C6)

`groupByLocation` dereferences `incident.location.toLowerCase()` with no null
check; on a `null`/`undefined` location JavaScript throws a `TypeError`.
Thrown exceptions are modelled with `Except String`.  `IncidentOpt` is the
incident record with a possibly-missing location. -/

/-- An incident record whose `location` may be `null`/`undefined`. -/
structure IncidentOpt where
  _id : Nat
  type : String
  severity : String
  location : Option String
  dateTime : DateTime
  deriving DecidableEq, Repr

/-- `incident.location.toLowerCase().trim()`: throws `TypeError` when the
location is missing. -/
def locationKeyE (location : Option String) : Except String String :=
  match location with
  | some s => .ok (jsTrim (jsToLowerCase s))
  | none => .error "TypeError"

/-- `groupByLocation` over possibly-missing locations: the `reduce` throws at
the first incident whose location is missing. -/
def groupByLocationE (incidents : List IncidentOpt) :
    Except String (List (String × List IncidentOpt)) :=
  incidents.foldlM
    (fun groups inc => (locationKeyE inc.location).map fun key =>
      insertGroup key inc groups)
    []

/-- View of an `IncidentOpt` as an `Incident` when its location is present. -/
def withLocation (inc : IncidentOpt) : Option Incident :=
  inc.location.map fun loc =>
    { _id := inc._id, type := inc.type, severity := inc.severity,
      location := loc, dateTime := inc.dateTime }

/-- Convert every incident, failing at the first missing location (the order
in which `groupByLocation` would reach them). -/
def allLocated : List IncidentOpt → Option (List Incident)
  | [] => some []
  | inc :: rest =>
    match withLocation inc with
    | none => none
    | some located =>
      match allLocated rest with
      | none => none
      | some rest2 => some (located :: rest2)

/-- `getCrimeTypeDistribution` over possibly-missing-location incidents (it
never reads the location). -/
def getCrimeTypeDistributionOpt (incidents : List IncidentOpt) : List (String × Nat) :=
  incidents.foldl (fun dist inc => bumpCount inc.type dist) []

/-- `getSeverityDistribution` over possibly-missing-location incidents. -/
def getSeverityDistributionOpt (incidents : List IncidentOpt) : List (String × Nat) :=
  incidents.foldl (fun dist inc => bumpCount inc.severity dist) []

/-- `generateBasicStats` over possibly-missing-location incidents (it never
reads the location). -/
def generateBasicStatsOpt (incidents : List IncidentOpt) : BasicStats :=
  { totalIncidents := incidents.length,
    timeRange :=
      if 0 < incidents.length then
        match incidents.getLast?, incidents.head? with
        | some lastInc, some headInc => some (lastInc.dateTime, headInc.dateTime)
        | _, _ => none
      else none,
    crimeTypes := getCrimeTypeDistributionOpt incidents,
    severityDistribution := getSeverityDistributionOpt incidents }

/-- `runComprehensiveAnalysis` over possibly-missing-location incidents.  With
fewer than 3 incidents the early return never touches a location.  Otherwise
the first detector invoked, `detectCrimeHotspots`, calls `groupByLocation` on
the whole filtered set, so a missing location anywhere throws a `TypeError`
that propagates out of the run before any result is produced; when every
location is present the run coincides with `runComprehensiveAnalysis` on the
converted incidents. -/
def runComprehensiveAnalysisE (now : Int) (timeRange : String)
    (incidents : List IncidentOpt) (minConfidence : ℚ) :
    Except String AnalysisResult :=
  if incidents.length < 3 then
    .ok { success := false,
          message := some "Insufficient data for meaningful analysis",
          patterns := [],
          statistics := generateBasicStatsOpt incidents,
          advancedStatistics := none,
          metadata := none }
  else
    match allLocated incidents with
    | some located => .ok (runComprehensiveAnalysis now timeRange located minConfidence)
    | none => .error "TypeError"

/-! ## Claim-side formulas for claim C4 (code bug in the time span)

`calculateTimeSpan`/`calculateTimeSpread` call `times.sort()` with no
comparator, so JavaScript sorts the numeric timestamps by their decimal
string representations.  The claim (and the spec) state the formula in terms
of the group's true earliest and latest timestamps.  The two agree whenever
all timestamps have equally many decimal digits — e.g. any window between
2001-09-09 and 2286-11-20 — but not in general.  The `claimed*` definitions
below follow the claim's words, for comparison with the source behaviour. -/

/-- The time spread as the claim states it: latest minus earliest timestamp
("earliest-to-latest timestamp delta"). -/
def claimedTimeSpread (incidents : List Incident) : Int :=
  if incidents.length < 2 then 0
  else
    match incidents.map (fun inc => inc.dateTime.getTime) with
    | [] => 0
    | t :: ts => ts.foldl max t - ts.foldl min t

/-- The density as the claim states it: count divided by
`max(1, days spanned by the group's earliest and latest incident)`. -/
def claimedDensity (incidents : List Incident) : ℚ :=
  (incidents.length : ℚ) /
    max 1 ((claimedTimeSpread incidents : ℚ) / (1000 * 60 * 60 * 24))

/-- The hotspot confidence as the claim states it:
`0.4·min(1, count/10) + 0.3·min(1, density/2) + 0.2·(avgSeverity/4) +
0.1·min(1, timeSpreadMs/(30 days in ms))`. -/
def claimedHotspotConfidence (incidents : List Incident) : ℚ :=
  0.4 * min 1 ((incidents.length : ℚ) / 10) +
  0.3 * min 1 (claimedDensity incidents / 2) +
  0.2 * (calculateAverageSeverity incidents / 4) +
  0.1 * min 1 ((claimedTimeSpread incidents : ℚ) / (30 * 24 * 60 * 60 * 1000))

/-- The well-formedness facts claim C1 needs of one pattern: confidence in
`[0,1]`, non-empty related incidents all drawn from the given incident set. -/
def patternOk (incidents : List Incident) (p : Pattern) : Prop :=
  0 ≤ p.confidence ∧ p.confidence ≤ 1 ∧ p.relatedIncidents ≠ [] ∧
  ∀ i ∈ p.relatedIncidents, i ∈ incidents.map (fun inc => inc._id)

/-! ## Concrete fixtures used by witnesses and counterexamples -/

/-- Abbreviation for building concrete `DateTime` observations. -/
def dtMk (t : Int) (h : Fin 24) (d : Fin 7) (m : Fin 12) : DateTime :=
  { getTime := t, getHours := h, getDay := d, getMonth := m }

/-- Three incidents at one location — the minimal successful run. -/
def fixtureThree : List Incident :=
  [{ _id := 1, type := "theft", severity := "low", location := "a", dateTime := dtMk 0 0 0 0 },
   { _id := 2, type := "theft", severity := "low", location := "a", dateTime := dtMk 1 0 0 0 },
   { _id := 3, type := "theft", severity := "low", location := "a", dateTime := dtMk 2 0 0 0 }]

/-- Two incidents — the insufficient-data boundary case of claim C3. -/
def fixtureTwo : List Incident := fixtureThree.take 2

/-- Four critical incidents at one location with tied crime-type counts
(`theft` first, `burglary` second) — the tie-break fixture of claim C9. -/
def fixtureTie : List Incident :=
  [{ _id := 1, type := "theft", severity := "critical", location := "a", dateTime := dtMk 0 0 0 0 },
   { _id := 2, type := "burglary", severity := "critical", location := "a", dateTime := dtMk 1 0 0 0 },
   { _id := 3, type := "theft", severity := "critical", location := "a", dateTime := dtMk 2 0 0 0 },
   { _id := 4, type := "burglary", severity := "critical", location := "a", dateTime := dtMk 3 0 0 0 }]

/-- Four incidents in one month — seasonal fixture of claim C5. -/
def fixtureMonth : List Incident :=
  [{ _id := 1, type := "theft", severity := "low", location := "a", dateTime := dtMk 0 0 0 0 },
   { _id := 2, type := "theft", severity := "low", location := "b", dateTime := dtMk 1 1 1 0 },
   { _id := 3, type := "theft", severity := "low", location := "c", dateTime := dtMk 2 2 2 0 },
   { _id := 4, type := "theft", severity := "low", location := "d", dateTime := dtMk 3 3 3 0 }]

/-- Three critical same-location incidents whose epoch-millisecond timestamps
have different decimal lengths, so that JavaScript's default (string) sort
misorders them — the failing input of claim C4. -/
def fixtureStringSort : List Incident :=
  [{ _id := 1, type := "theft", severity := "critical", location := "a",
     dateTime := dtMk 999999999998 0 0 0 },
   { _id := 2, type := "theft", severity := "critical", location := "a",
     dateTime := dtMk 999999999999 0 0 0 },
   { _id := 3, type := "theft", severity := "critical", location := "a",
     dateTime := dtMk 1000000000000 0 0 0 }]

/-- Ten incidents, five of them at hour 2 — the end-to-end hourly scenario of
claim C8. -/
def fixtureHour : List Incident :=
  [{ _id := 1, type := "theft", severity := "low", location := "a", dateTime := dtMk 0 2 0 0 },
   { _id := 2, type := "theft", severity := "low", location := "a", dateTime := dtMk 1 2 0 0 },
   { _id := 3, type := "theft", severity := "low", location := "a", dateTime := dtMk 2 2 0 0 },
   { _id := 4, type := "theft", severity := "low", location := "a", dateTime := dtMk 3 2 0 0 },
   { _id := 5, type := "theft", severity := "low", location := "a", dateTime := dtMk 4 2 0 0 },
   { _id := 6, type := "theft", severity := "low", location := "a", dateTime := dtMk 5 5 0 0 },
   { _id := 7, type := "theft", severity := "low", location := "a", dateTime := dtMk 6 5 0 0 },
   { _id := 8, type := "theft", severity := "low", location := "a", dateTime := dtMk 7 5 0 0 },
   { _id := 9, type := "theft", severity := "low", location := "a", dateTime := dtMk 8 7 0 0 },
   { _id := 10, type := "theft", severity := "low", location := "a", dateTime := dtMk 9 7 0 0 }]

/-- Three incidents, the third with a missing location — the aborting input of
claim C6. -/
def fixtureMissing : List IncidentOpt :=
  [{ _id := 1, type := "theft", severity := "low", location := some "a", dateTime := dtMk 0 0 0 0 },
   { _id := 2, type := "theft", severity := "low", location := some "a", dateTime := dtMk 1 0 0 0 },
   { _id := 3, type := "theft", severity := "low", location := none, dateTime := dtMk 2 0 0 0 }]

/-! ## General lemmas about the modelling helpers

Permutation, sortedness and stability of the stable sort; iteration-order and
group-by soundness facts used throughout the claim theorems. -/

theorem insertLe_perm (le : α → α → Bool) (x : α) (l : List α) :
    insertLe le x l ~ x :: l := by
  induction l with
  | nil => exact .refl _
  | cons y ys ih =>
    simp only [insertLe]
    split
    · exact .refl _
    · exact (ih.cons y).trans (List.Perm.swap x y ys)

theorem sortLe_perm (le : α → α → Bool) (l : List α) : sortLe le l ~ l := by
  induction l with
  | nil => exact .refl _
  | cons x xs ih => exact (insertLe_perm le x (sortLe le xs)).trans (ih.cons x)

theorem mem_insertLe {le : α → α → Bool} {x y : α} {l : List α} :
    y ∈ insertLe le x l ↔ y = x ∨ y ∈ l := by
  rw [(insertLe_perm le x l).mem_iff, List.mem_cons]

theorem mem_sortLe {le : α → α → Bool} {x : α} {l : List α} :
    x ∈ sortLe le l ↔ x ∈ l := (sortLe_perm le l).mem_iff

theorem insertLe_pairwise {le : α → α → Bool}
    (tot : ∀ a b, le a b = true ∨ le b a = true)
    (tr : ∀ a b c, le a b = true → le b c = true → le a c = true)
    {x : α} {l : List α} (h : l.Pairwise (fun a b => le a b = true)) :
    (insertLe le x l).Pairwise (fun a b => le a b = true) := by
  induction l with
  | nil => simp [insertLe]
  | cons y ys ih =>
    rw [List.pairwise_cons] at h
    obtain ⟨hy, hys⟩ := h
    simp only [insertLe]
    split
    case isTrue hxy =>
      refine List.Pairwise.cons ?_ (List.pairwise_cons.mpr ⟨hy, hys⟩)
      intro b hb
      rcases List.mem_cons.mp hb with rfl | hb
      · exact hxy
      · exact tr _ _ _ hxy (hy b hb)
    case isFalse hxy =>
      refine List.Pairwise.cons ?_ (ih hys)
      intro b hb
      rcases mem_insertLe.mp hb with hbx | hb
      · cases hbx
        rcases tot x y with h' | h'
        · exact absurd h' hxy
        · exact h'
      · exact hy b hb

theorem sortLe_pairwise {le : α → α → Bool}
    (tot : ∀ a b, le a b = true ∨ le b a = true)
    (tr : ∀ a b c, le a b = true → le b c = true → le a c = true)
    (l : List α) : (sortLe le l).Pairwise (fun a b => le a b = true) := by
  induction l with
  | nil => exact .nil
  | cons x xs ih => exact insertLe_pairwise tot tr ih

theorem filter_insertLe_pos {le : α → α → Bool} {k : α → Bool} {x : α}
    (l : List α) (hk : k x = true)
    (hcomp : ∀ y ∈ l, k y = true → le x y = true) :
    (insertLe le x l).filter k = x :: l.filter k := by
  induction l with
  | nil => simp [insertLe, hk]
  | cons y ys ih =>
    simp only [insertLe]
    split
    case isTrue hxy => simp [List.filter_cons, hk]
    case isFalse hxy =>
      have hky : ¬ k y = true := by
        intro hy
        exact absurd (hcomp y (List.mem_cons_self y ys) hy) hxy
      rw [List.filter_cons_of_neg hky, List.filter_cons_of_neg hky]
      exact ih fun y' hy' => hcomp y' (List.mem_cons_of_mem y hy')

theorem filter_insertLe_neg {le : α → α → Bool} {k : α → Bool} {x : α}
    (l : List α) (hk : k x = false) :
    (insertLe le x l).filter k = l.filter k := by
  induction l with
  | nil => simp [insertLe, hk]
  | cons y ys ih =>
    simp only [insertLe]
    split
    · simp [List.filter_cons, hk]
    · simp only [List.filter_cons]
      cases k y <;> simp [ih]

/-- Stability of `sortLe`: the subsequence of elements selected by a key
predicate `k` whose elements are mutually `le`-related is unchanged by
sorting. -/
theorem sortLe_filter_stable {le : α → α → Bool} {k : α → Bool}
    (hcl : ∀ a b, k a = true → k b = true → le a b = true) :
    ∀ l : List α, (sortLe le l).filter k = l.filter k := by
  intro l
  induction l with
  | nil => rfl
  | cons x xs ih =>
    simp only [sortLe]
    cases hk : k x
    · rw [filter_insertLe_neg _ hk, ih, List.filter_cons_of_neg (by simp [hk])]
    · rw [filter_insertLe_pos _ hk fun y _ hy => hcl x y hk hy, ih,
        List.filter_cons_of_pos hk]

/-- In a list that is `Pairwise R`-sorted, a predicate `P` that propagates
backwards along `R` selects a prefix. -/
theorem pairwise_filter_isPrefix {R : α → α → Prop} {P : α → Bool}
    (hPR : ∀ a b, R a b → P b = true → P a = true) :
    ∀ l : List α, l.Pairwise R → (l.filter P) <+: l := by
  intro l hl
  induction l with
  | nil => simp
  | cons x xs ih =>
    rw [List.pairwise_cons] at hl
    obtain ⟨hx, hxs⟩ := hl
    cases hPx : P x
    · have : xs.filter P = [] := by
        rw [List.filter_eq_nil_iff]
        intro y hy hPy
        exact absurd (hPR x y (hx y hy) hPy) (by simp [hPx])
      rw [List.filter_cons_of_neg (by simp [hPx]), this]
      exact List.nil_prefix
    · rw [List.filter_cons_of_pos hPx]
      obtain ⟨t, ht⟩ := ih hxs
      exact ⟨t, by rw [List.cons_append, ht]⟩

/-- If a prefix-selecting predicate fails on some member of `l.take n`, then it
selects fewer than `n` elements of `l`. -/
theorem filter_length_lt_of_mem_take {l : List α} {P : α → Bool}
    (hpre : l.filter P <+: l) {n : Nat} {x : α}
    (hx : x ∈ l.take n) (hPx : P x = false) : (l.filter P).length < n := by
  by_contra hlen
  push_neg at hlen
  have heq : l.filter P = l.take (l.filter P).length :=
    List.prefix_iff_eq_take.mp hpre
  have hsub : x ∈ l.take (l.filter P).length := by
    have : l.take n = (l.take (l.filter P).length).take n := by
      rw [List.take_take, Nat.min_eq_left hlen]
    exact List.take_subset _ _ (this ▸ hx)
  rw [← heq] at hsub
  have := List.of_mem_filter hsub
  simp [hPx] at this

theorem jsEntries_perm (l : List (String × α)) : jsEntries l ~ l :=
  ((sortLe_perm _ _).append_right _).trans (List.filter_append_perm _ l)

theorem mem_jsEntries {l : List (String × α)} {e : String × α} :
    e ∈ jsEntries l ↔ e ∈ l := (jsEntries_perm l).mem_iff

theorem insertGroup_inv {Q : α → Prop} {gs : List (String × List α)}
    (hgs : ∀ e ∈ gs, e.2 ≠ [] ∧ ∀ i ∈ e.2, Q i) {x : α} (hx : Q x)
    (key : String) :
    ∀ e ∈ insertGroup key x gs, e.2 ≠ [] ∧ ∀ i ∈ e.2, Q i := by
  induction gs with
  | nil =>
    intro e he
    simp only [insertGroup, List.mem_singleton] at he
    subst he
    exact ⟨by simp, by simpa using hx⟩
  | cons g rest ih =>
    obtain ⟨k, l⟩ := g
    intro e he
    simp only [insertGroup] at he
    split at he
    · rcases List.mem_cons.mp he with rfl | he
      · refine ⟨by simp, ?_⟩
        intro i hi
        rcases List.mem_append.mp hi with hi | hi
        · exact (hgs (k, l) (List.mem_cons_self _ _)).2 i hi
        · rw [List.mem_singleton.mp hi]; exact hx
      · exact hgs e (List.mem_cons_of_mem _ he)
    · rcases List.mem_cons.mp he with rfl | he
      · exact hgs (k, l) (List.mem_cons_self _ _)
      · exact ih (fun e' he' => hgs e' (List.mem_cons_of_mem _ he')) e he

theorem jsGroupBy_inv {Q : α → Prop} (key : α → String) :
    ∀ (l : List α), (∀ x ∈ l, Q x) →
      ∀ e ∈ jsGroupBy key l, e.2 ≠ [] ∧ ∀ i ∈ e.2, Q i := by
  have go : ∀ (l : List α) (gs : List (String × List α)),
      (∀ e ∈ gs, e.2 ≠ [] ∧ ∀ i ∈ e.2, Q i) → (∀ x ∈ l, Q x) →
      ∀ e ∈ l.foldl (fun groups x => insertGroup (key x) x groups) gs,
        e.2 ≠ [] ∧ ∀ i ∈ e.2, Q i := by
    intro l
    induction l with
    | nil => intro gs hgs _ e he; exact hgs e he
    | cons x xs ih =>
      intro gs hgs hl e he
      exact ih _ (insertGroup_inv hgs (hl x (List.mem_cons_self _ _)) _)
        (fun y hy => hl y (List.mem_cons_of_mem _ hy)) e he
  intro l hl
  exact go l [] (by simp) hl

/-- Soundness of the group-by helpers: every group is non-empty and only
contains incidents from the input list. -/
theorem jsGroupBy_sound (key : α → String) (l : List α) :
    ∀ e ∈ jsGroupBy key l, e.2 ≠ [] ∧ ∀ i ∈ e.2, i ∈ l :=
  jsGroupBy_inv key l (fun _ hx => hx)

/-! ## Claim C3: insufficient-data short-circuit -/

/-- **C3** — For every run whose filtered incident set has fewer than 3
incidents, `runComprehensiveAnalysis` returns immediately with `success =
false`, an empty pattern list and only basic statistics (no advanced
statistics, no metadata), whose `totalIncidents` equals the filtered count;
the result is the early-return record, to which no detector contributes. -/
theorem spec_C3 (now : Int) (timeRange : String) (incidents : List Incident)
    (minConfidence : ℚ) (h : incidents.length < 3) :
    runComprehensiveAnalysis now timeRange incidents minConfidence =
      { success := false,
        message := some "Insufficient data for meaningful analysis",
        patterns := [],
        statistics := generateBasicStats incidents,
        advancedStatistics := none,
        metadata := none } ∧
    (generateBasicStats incidents).totalIncidents = incidents.length := by
  refine ⟨?_, rfl⟩
  rw [runComprehensiveAnalysis, if_pos h]

/-- Witness for C3 at the boundary fixture with exactly 2 incidents:
`success = false`, empty patterns, `totalIncidents = 2`. -/
theorem spec_C3_witness :
    fixtureTwo.length < 3 ∧
    runComprehensiveAnalysis 0 "30days" fixtureTwo 0.5 =
      { success := false,
        message := some "Insufficient data for meaningful analysis",
        patterns := [],
        statistics := generateBasicStats fixtureTwo,
        advancedStatistics := none,
        metadata := none } ∧
    (generateBasicStats fixtureTwo).totalIncidents = 2 :=
  ⟨by decide, (spec_C3 0 "30days" fixtureTwo 0.5 (by decide)).1,
    (spec_C3 0 "30days" fixtureTwo 0.5 (by decide)).2⟩

/-! ## Claim C10: the geographic clustering stub -/

/-- **C10** — `clusterByDistance` puts the entire filtered set into a single
cluster regardless of the 1000-unit threshold and of the items' coordinates,
so for `n ≥ 4` the geographic cluster detector emits exactly one pattern with
confidence `min 0.8 (n/8)` whose related incidents are the whole filtered set,
and for `n < 4` it emits nothing. -/
theorem spec_C10 (incidents : List Incident) (maxDistance : ℚ) :
    clusterByDistance
        (incidents.map fun inc =>
          ({ id := inc._id, location := inc.location, type := inc.type,
             severity := inc.severity, dateTime := inc.dateTime } : ClusterItem))
        maxDistance =
      [incidents.map fun inc =>
        ({ id := inc._id, location := inc.location, type := inc.type,
           severity := inc.severity, dateTime := inc.dateTime } : ClusterItem)] ∧
    (4 ≤ incidents.length →
      performGeographicClustering incidents =
        [{ type := "geographic-cluster",
           subtype := none,
           description := "Geographic crime cluster identified",
           confidence := min 0.8 ((incidents.length : ℚ) / 8),
           location := "Central Area",
           statistics :=
             [("incidentCount", .num (incidents.length : ℚ)),
              ("radius", .num 500),
              ("density", .num ((incidents.length : ℚ) / 1000)),
              ("crimeTypes", .dist [])],
           relatedIncidents := incidents.map (fun inc => inc._id),
           riskLevel := categorizeRiskLevel (min 0.8 ((incidents.length : ℚ) / 8)) }]) ∧
    (incidents.length < 4 → performGeographicClustering incidents = []) := by
  refine ⟨rfl, ?_, ?_⟩
  · intro h4
    have h4q : (4 : ℚ) ≤ (incidents.length : ℚ) := by exact_mod_cast h4
    have hgate : (0.4 : ℚ) ≤ min 0.8 ((incidents.length : ℚ) / 8) := by
      rw [le_min_iff]
      constructor
      · norm_num
      · linarith
    simp only [performGeographicClustering, clusterByDistance, mkClusterPattern,
      calculateClusterConfidence, calculateClusterCenter, calculateClusterRadius,
      calculateClusterDensity, getClusterCrimeTypes, assessClusterRisk,
      List.filterMap_cons, List.filterMap_nil, List.length_map]
    rw [if_pos h4, if_pos hgate]
    simp [List.map_map, Function.comp]
  · intro h
    have : ¬ (4 ≤ incidents.length) := by omega
    simp only [performGeographicClustering, clusterByDistance,
      List.filterMap_cons, List.filterMap_nil, List.length_map]
    rw [if_neg this]

/-- Witness for C10 at a 4-incident fixture. -/
theorem spec_C10_witness :
    4 ≤ fixtureTie.length ∧
    performGeographicClustering fixtureTie =
      [{ type := "geographic-cluster",
         subtype := none,
         description := "Geographic crime cluster identified",
         confidence := min 0.8 ((fixtureTie.length : ℚ) / 8),
         location := "Central Area",
         statistics :=
           [("incidentCount", .num (fixtureTie.length : ℚ)),
            ("radius", .num 500),
            ("density", .num ((fixtureTie.length : ℚ) / 1000)),
            ("crimeTypes", .dist [])],
         relatedIncidents := fixtureTie.map (fun inc => inc._id),
         riskLevel := categorizeRiskLevel (min 0.8 ((fixtureTie.length : ℚ) / 8)) }] :=
  ⟨by decide, (spec_C10 fixtureTie 1000).2.1 (by decide)⟩

/-! ## Claim C4: the hotspot confidence formula versus the source -/

/-- **C4** — On a 3-incident group whose timestamps straddle a decimal-length
boundary, the default (string) sort misorders the timestamps: the code
computes a time spread of `-1` ms where the true earliest-to-latest delta is
`2` ms, and the emitted hotspot confidence `0.62` differs from the value the
claim's formula prescribes.  The claim is the documented intent ("earliest"/
"latest"); sorting numbers with JavaScript's default comparator is the slip. -/
theorem spec_C4 :
    calculateTimeSpread fixtureStringSort = -1 ∧
    claimedTimeSpread fixtureStringSort = 2 ∧
    (detectCrimeHotspots fixtureStringSort).map (fun p => p.confidence) = [0.62] ∧
    claimedHotspotConfidence fixtureStringSort = 0.62 + 1 / 12960000000 ∧
    (0.62 : ℚ) ≠ 0.62 + 1 / 12960000000 := by
  have hspan : calculateTimeSpan fixtureStringSort = -1 := by decide
  have hct : claimedTimeSpread fixtureStringSort = 2 := by decide
  have hg : jsEntries (groupByLocation fixtureStringSort) = [("a", fixtureStringSort)] := by
    decide
  have hlen : fixtureStringSort.length = 3 := by decide
  have hsm : severityMap "critical" = 4 := by decide
  have hsev : calculateAverageSeverity fixtureStringSort = 4 := by
    simp only [calculateAverageSeverity, fixtureStringSort, List.foldl_cons,
      List.foldl_nil, hsm, List.length_cons, List.length_nil]
    norm_num
  refine ⟨by rw [calculateTimeSpread, hspan], hct, ?_, ?_, by norm_num⟩
  · simp only [detectCrimeHotspots, hg, List.filterMap_cons, List.filterMap_nil,
      hotspotConfidenceOf, mkHotspotPattern, calculateCrimeDensity,
      calculateTimeSpread, hspan, hsev, calculateHotspotConfidence, hlen]
    norm_num [max_def, min_def]
  · simp only [claimedHotspotConfidence, claimedDensity, hct, hsev, hlen]
    norm_num [max_def, min_def]

/-! ## Claim C5: risk-level thresholds -/

/-- **C5, counterexample** — Four incidents in one month make the seasonal
detector emit a pattern with confidence `0.8` and risk level `"medium"`;
the claim's shared threshold pair (`≥ 0.7 → "high"`) demands `"high"` there,
so the claim as stated is false: the temporal-pattern detector does not use
the shared thresholds. -/
theorem spec_C5_counterexample :
    (detectSeasonalPatterns fixtureMonth).map (fun p => (p.confidence, p.riskLevel)) =
      [(0.8, "medium")] ∧
    (0.7 : ℚ) ≤ 0.8 ∧ ("medium" : String) ≠ "high" := by
  refine ⟨?_, by norm_num, by decide⟩
  have h : reduceMaxEntry (monthEntries fixtureMonth) = some (0, 4) := by decide
  simp only [detectSeasonalPatterns, h, mkSeasonalPattern, seasonalConfidence]
  norm_num [min_def, fixtureMonth]

/-- **C5, amended** — The hotspot, crime-series, geographic-cluster,
predictive and risk-assessment detectors all derive their emitted risk level
through the shared `categorizeRiskLevel` thresholds (`"high"` iff score
≥ 0.7, `"medium"` iff 0.5 ≤ score < 0.7, `"low"` otherwise) applied to their
respective risk scores; for hotspots the score is `assessRiskLevel` of the
pattern's confidence and its *own* location group's average severity and
size, the group being the entry of the source grouping at the pattern's
location.  The temporal-pattern detector does not: its hourly and daily
patterns threshold their own confidence with *strict* comparisons (`> 0.7`
high, `> 0.5` medium), and its seasonal patterns use
`confidence > 0.6 → "medium"`, otherwise `"low"`, never emitting `"high"`. -/
theorem spec_C5 (now : Int) (incidents : List Incident) :
    (∀ s : ℚ,
      (categorizeRiskLevel s = "high" ↔ 0.7 ≤ s) ∧
      (categorizeRiskLevel s = "medium" ↔ 0.5 ≤ s ∧ s < 0.7) ∧
      (categorizeRiskLevel s = "low" ↔ s < 0.5)) ∧
    (∀ (c s : ℚ) (n : Nat),
      assessRiskLevel c s n =
        categorizeRiskLevel
          (c * 0.4 + s / 4 * 0.4 + min 1 ((n : ℚ) / 10) * 0.2)) ∧
    (∀ p ∈ detectCrimeHotspots incidents, ∃ group : List Incident,
      (p.location, group) ∈ jsEntries (groupByLocation incidents) ∧
      p.relatedIncidents = group.map (fun inc => inc._id) ∧
      p.riskLevel =
        assessRiskLevel p.confidence (calculateAverageSeverity group)
          group.length) ∧
    (∀ p ∈ detectCrimeSeries incidents,
      p.riskLevel = categorizeRiskLevel p.confidence) ∧
    (∀ p ∈ performGeographicClustering incidents,
      p.riskLevel = categorizeRiskLevel p.confidence) ∧
    (∀ p ∈ predictFutureHotspots now incidents, ∃ trendConfidence : ℚ,
      p.confidence = trendConfidence * 0.8 ∧
      p.riskLevel = categorizeRiskLevel trendConfidence) ∧
    (∀ p ∈ assessAreaRisk now incidents, ∃ riskScore : ℚ,
      p.riskLevel = categorizeRiskLevel riskScore ∧
      p.confidence = min 0.9 (riskScore + 0.1)) ∧
    (∀ p ∈ detectHourlyPatterns incidents,
      p.riskLevel =
        if 0.7 < p.confidence then "high"
        else if 0.5 < p.confidence then "medium" else "low") ∧
    (∀ p ∈ detectDailyPatterns incidents,
      p.riskLevel =
        if 0.7 < p.confidence then "high"
        else if 0.5 < p.confidence then "medium" else "low") ∧
    (∀ p ∈ detectSeasonalPatterns incidents,
      (p.riskLevel = if 0.6 < p.confidence then "medium" else "low") ∧
      p.riskLevel ≠ "high") := by
  refine ⟨?_, ?_, ?_, ?_, ?_, ?_, ?_, ?_, ?_, ?_⟩
  · intro s
    by_cases h7 : (0.7 : ℚ) ≤ s
    · unfold categorizeRiskLevel
      rw [if_pos h7]
      exact ⟨⟨fun _ => h7, fun _ => rfl⟩,
        ⟨fun h => absurd h (by decide), fun h => absurd h.2 (not_lt.mpr h7)⟩,
        ⟨fun h => absurd h (by decide), fun h => absurd (lt_of_lt_of_le h (by norm_num)) (not_lt.mpr h7)⟩⟩
    · by_cases h5 : (0.5 : ℚ) ≤ s
      · unfold categorizeRiskLevel
        rw [if_neg h7, if_pos h5]
        exact ⟨⟨fun h => absurd h (by decide), fun h => absurd h h7⟩,
          ⟨fun _ => ⟨h5, not_le.mp h7⟩, fun _ => rfl⟩,
          ⟨fun h => absurd h (by decide), fun h => absurd h (not_lt.mpr h5)⟩⟩
      · unfold categorizeRiskLevel
        rw [if_neg h7, if_neg h5]
        exact ⟨⟨fun h => absurd h (by decide), fun h => absurd h h7⟩,
          ⟨fun h => absurd h (by decide), fun h => absurd h.1 h5⟩,
          ⟨fun _ => not_le.mp h5, fun _ => rfl⟩⟩
  · intro c s n
    rfl
  · intro p hp
    rw [detectCrimeHotspots] at hp
    obtain ⟨e, he, hfe⟩ := List.mem_filterMap.mp hp
    split at hfe
    · split at hfe
      · obtain rfl := Option.some.inj hfe
        exact ⟨e.2, he, rfl, rfl⟩
      · exact absurd hfe (by simp)
    · exact absurd hfe (by simp)
  · intro p hp
    rw [detectCrimeSeries] at hp
    obtain ⟨e, _, hmem⟩ := List.mem_flatMap.mp hp
    split at hmem
    · obtain ⟨cluster, _, hfc⟩ := List.mem_filterMap.mp hmem
      split at hfc
      · split at hfc
        · obtain rfl := Option.some.inj hfc
          rfl
        · exact absurd hfc (by simp)
      · exact absurd hfc (by simp)
    · exact absurd hmem (by simp)
  · intro p hp
    rw [performGeographicClustering] at hp
    obtain ⟨cluster, _, hfc⟩ := List.mem_filterMap.mp hp
    split at hfc
    · split at hfc
      · obtain rfl := Option.some.inj hfc
        rfl
      · exact absurd hfc (by simp)
    · exact absurd hfc (by simp)
  · intro p hp
    rw [predictFutureHotspots] at hp
    obtain ⟨e, _, hfe⟩ := List.mem_filterMap.mp hp
    split at hfe
    · obtain rfl := Option.some.inj hfe
      exact ⟨e.2.confidence, rfl, rfl⟩
    · exact absurd hfe (by simp)
  · intro p hp
    rw [assessAreaRisk] at hp
    obtain ⟨e, _, hfe⟩ := List.mem_filterMap.mp hp
    split at hfe
    · obtain rfl := Option.some.inj hfe
      exact ⟨calculateRiskScore now e.2, rfl, rfl⟩
    · exact absurd hfe (by simp)
  · intro p hp
    rw [detectHourlyPatterns] at hp
    obtain ⟨e, _, hfe⟩ := List.mem_filterMap.mp hp
    split at hfe
    · obtain rfl := Option.some.inj hfe
      rfl
    · exact absurd hfe (by simp)
  · intro p hp
    rw [detectDailyPatterns] at hp
    obtain ⟨e, _, hfe⟩ := List.mem_filterMap.mp hp
    split at hfe
    · obtain rfl := Option.some.inj hfe
      rfl
    · exact absurd hfe (by simp)
  · intro p hp
    rw [detectSeasonalPatterns] at hp
    split at hp
    · exact absurd hp (by simp)
    · split at hp
      · obtain rfl := List.mem_singleton.mp hp
        refine ⟨rfl, ?_⟩
        dsimp only [mkSeasonalPattern]
        split
        · decide
        · decide
      · exact absurd hp (by simp)

/-- Witness for the amended C5 at concrete inputs. -/
theorem spec_C5_witness :
    (∀ p ∈ detectCrimeHotspots fixtureTie, ∃ group : List Incident,
      (p.location, group) ∈ jsEntries (groupByLocation fixtureTie) ∧
      p.relatedIncidents = group.map (fun inc => inc._id) ∧
      p.riskLevel =
        assessRiskLevel p.confidence (calculateAverageSeverity group)
          group.length) ∧
    (∀ p ∈ detectSeasonalPatterns fixtureMonth,
      (p.riskLevel = if 0.6 < p.confidence then "medium" else "low") ∧
      p.riskLevel ≠ "high") ∧
    (categorizeRiskLevel 0.8 = "high" ↔ (0.7 : ℚ) ≤ 0.8) :=
  ⟨(spec_C5 0 fixtureTie).2.2.1,
    (spec_C5 0 fixtureMonth).2.2.2.2.2.2.2.2.2,
    ((spec_C5 0 fixtureMonth).1 0.8).1⟩

/-! ## Claim C6: missing locations abort the run -/

theorem allLocated_eq_none :
    ∀ {l : List IncidentOpt}, (∃ inc ∈ l, inc.location = none) →
      allLocated l = none := by
  intro l
  induction l with
  | nil => rintro ⟨a, ha, _⟩; cases ha
  | cons x xs ih =>
    rintro ⟨a, ha, hfa⟩
    rcases List.mem_cons.mp ha with rfl | ha
    · rw [allLocated]
      have : withLocation a = none := by simp [withLocation, hfa]
      rw [this]
    · rw [allLocated]
      cases hfx : withLocation x
      · rfl
      · rw [ih ⟨a, ha, hfa⟩]

/-- **C6, counterexample** — On a 3-incident input whose third incident has no
location, the grouping step throws a `TypeError` and the analysis run aborts
with that error; it does not continue over the remaining incidents. -/
theorem spec_C6_counterexample :
    groupByLocationE fixtureMissing = Except.error "TypeError" ∧
    runComprehensiveAnalysisE 0 "30days" fixtureMissing 0.5 =
      Except.error "TypeError" := by
  exact ⟨rfl, rfl⟩

/-- **C6, amended** — Whenever the detectors run (≥ 3 incidents after
filtering) and any incident's location is missing, `groupByLocation` throws a
`TypeError` inside the first detector and the whole analysis run aborts with
that error, instead of excluding the incident and continuing. -/
theorem spec_C6 (now : Int) (timeRange : String) (incidents : List IncidentOpt)
    (minConfidence : ℚ) (hlen : 3 ≤ incidents.length)
    (hmiss : ∃ inc ∈ incidents, inc.location = none) :
    runComprehensiveAnalysisE now timeRange incidents minConfidence =
      Except.error "TypeError" := by
  rw [runComprehensiveAnalysisE, if_neg (by omega)]
  rw [allLocated_eq_none hmiss]

/-- Witness for the amended C6. -/
theorem spec_C6_witness :
    3 ≤ fixtureMissing.length ∧ (∃ inc ∈ fixtureMissing, inc.location = none) ∧
    runComprehensiveAnalysisE 5 "7days" fixtureMissing 0.7 =
      Except.error "TypeError" :=
  ⟨by decide, by decide,
    spec_C6 5 "7days" fixtureMissing 0.7 (by decide) (by decide)⟩

/-! ## Claim C9: the hotspot subtype tie-break -/

/-- The result of `entries.reduce((a, b) => a.2 > b.2 ? a : b)` is the *last*
entry attaining the maximal count: the input splits around the result with
everything before it `≤` and everything after it strictly smaller. -/
theorem foldl_pickMax_decomp (es : List (α × Nat)) (e : α × Nat) :
    ∃ l1 l2,
      e :: es = l1 ++ (es.foldl (fun a b => if a.2 > b.2 then a else b) e) :: l2 ∧
      (∀ x ∈ l1, x.2 ≤ (es.foldl (fun a b => if a.2 > b.2 then a else b) e).2) ∧
      (∀ x ∈ l2, x.2 < (es.foldl (fun a b => if a.2 > b.2 then a else b) e).2) := by
  induction es generalizing e with
  | nil => exact ⟨[], [], rfl, by simp, by simp⟩
  | cons b bs ih =>
    simp only [List.foldl_cons]
    by_cases he : e.2 > b.2
    · rw [if_pos he]
      obtain ⟨l1, l2, hdec, hle, hlt⟩ := ih e
      rcases l1 with _ | ⟨h1, t1⟩
      · simp only [List.nil_append] at hdec
        injection hdec with he1 he2
        refine ⟨[], b :: bs, ?_, by simp, ?_⟩
        · rw [List.nil_append, ← he1]
        · intro x hx
          rcases List.mem_cons.mp hx with rfl | hx
          · rw [← he1]; exact he
          · exact hlt x (he2 ▸ hx)
      · rw [List.cons_append] at hdec
        injection hdec with he1 he2
        have hh1 : e.2 ≤ (bs.foldl (fun a b => if a.2 > b.2 then a else b) e).2 := by
          have := hle h1 (List.mem_cons_self _ _)
          rwa [← he1] at this
        refine ⟨e :: b :: t1, l2, ?_, ?_, hlt⟩
        · rw [List.cons_append, List.cons_append, ← he2]
        · intro x hx
          rcases List.mem_cons.mp hx with rfl | hx
          · exact hh1
          rcases List.mem_cons.mp hx with rfl | hx
          · exact le_trans (le_of_lt he) hh1
          · exact hle x (List.mem_cons_of_mem _ hx)
    · rw [if_neg he]
      have heb : e.2 ≤ b.2 := Nat.le_of_not_lt he
      obtain ⟨l1, l2, hdec, hle, hlt⟩ := ih b
      rcases l1 with _ | ⟨h1, t1⟩
      · simp only [List.nil_append] at hdec
        injection hdec with he1 he2
        refine ⟨[e], bs, ?_, ?_, ?_⟩
        · rw [List.cons_append, List.nil_append, ← he1]
        · intro x hx
          rw [List.mem_singleton.mp hx, ← he1]
          exact heb
        · intro x hx
          exact hlt x (he2 ▸ hx)
      · rw [List.cons_append] at hdec
        injection hdec with he1 he2
        have hb1 : b.2 ≤ (bs.foldl (fun a b => if a.2 > b.2 then a else b) b).2 := by
          have := hle h1 (List.mem_cons_self _ _)
          rwa [← he1] at this
        refine ⟨e :: b :: t1, l2, ?_, ?_, hlt⟩
        · rw [List.cons_append, List.cons_append, ← he2]
        · intro x hx
          rcases List.mem_cons.mp hx with rfl | hx
          · exact le_trans heb hb1
          rcases List.mem_cons.mp hx with rfl | hx
          · exact hb1
          · exact hle x (List.mem_cons_of_mem _ hx)

theorem bumpCount_ne_nil (key : String) (d : List (String × Nat)) :
    bumpCount key d ≠ [] := by
  cases d with
  | nil => simp [bumpCount]
  | cons e rest =>
    obtain ⟨k, c⟩ := e
    simp only [bumpCount]
    split <;> simp

theorem foldl_bumpCount_ne_nil (key : α → String) :
    ∀ (l : List α) (d : List (String × Nat)), d ≠ [] →
      l.foldl (fun dist x => bumpCount (key x) dist) d ≠ [] := by
  intro l
  induction l with
  | nil => intro d hd; exact hd
  | cons x xs ih => intro d _; exact ih _ (bumpCount_ne_nil _ _)

theorem getCrimeTypeDistribution_ne_nil {incidents : List Incident}
    (h : incidents ≠ []) : getCrimeTypeDistribution incidents ≠ [] := by
  obtain ⟨x, xs, rfl⟩ := List.exists_cons_of_ne_nil h
  rw [getCrimeTypeDistribution, List.foldl_cons]
  exact foldl_bumpCount_ne_nil _ xs _ (bumpCount_ne_nil _ _)

/-- **C9, counterexample** — A hotspot group with tied crime-type counts
(`theft` encountered first, `burglary` second) is classified `burglary`: the
`reduce` keeps its accumulator only on *strictly greater* counts, so ties go
to the later entry, not the first-encountered one the claim states. -/
theorem spec_C9_counterexample :
    (detectCrimeHotspots fixtureTie).map (fun p => p.subtype) =
      [some "burglary"] ∧
    jsEntries (getCrimeTypeDistribution fixtureTie) =
      [("theft", 2), ("burglary", 2)] ∧
    (some "burglary" : Option String) ≠ some "theft" := by
  refine ⟨?_, by decide, by decide⟩
  have hg : jsEntries (groupByLocation fixtureTie) = [("a", fixtureTie)] := by decide
  have hspan : calculateTimeSpan fixtureTie = 3 := by decide
  have hsm : severityMap "critical" = 4 := by decide
  have hsev : calculateAverageSeverity fixtureTie = 4 := by
    simp only [calculateAverageSeverity, fixtureTie, List.foldl_cons, List.foldl_nil,
      hsm, List.length_cons, List.length_nil]
    norm_num
  have hsub : classifyHotspotType fixtureTie = "burglary" := by decide
  have hlen : fixtureTie.length = 4 := by decide
  simp only [detectCrimeHotspots, hg, List.filterMap_cons, List.filterMap_nil,
    hotspotConfidenceOf, mkHotspotPattern, calculateCrimeDensity,
    calculateTimeSpread, hspan, hsev, hsub, calculateHotspotConfidence, hlen]
  norm_num [max_def, min_def]

/-- **C9, amended** — For every emitted hotspot pattern, its location group —
the entry of the source grouping keyed by the pattern's own location, with at
least 3 incidents and related-incident ids exactly the group's — yields the
subtype as a crime-type with the greatest count within that group, and when
two or more crime-types are tied for the greatest count the subtype is the
one encountered *last* in iteration order over the group's crime-type
distribution: all entries after the chosen one have strictly smaller counts,
all entries before it have counts ≤ the chosen one. -/
theorem spec_C9 (incidents : List Incident) :
    ∀ p ∈ detectCrimeHotspots incidents,
      ∃ (group : List Incident) (entry : String × Nat)
        (l1 l2 : List (String × Nat)),
        (p.location, group) ∈ jsEntries (groupByLocation incidents) ∧
        3 ≤ group.length ∧
        p.relatedIncidents = group.map (fun inc => inc._id) ∧
        p.subtype = some entry.1 ∧
        jsEntries (getCrimeTypeDistribution group) = l1 ++ entry :: l2 ∧
        (∀ x ∈ l1, x.2 ≤ entry.2) ∧
        (∀ x ∈ l2, x.2 < entry.2) := by
  intro p hp
  rw [detectCrimeHotspots] at hp
  obtain ⟨e, he, hfe⟩ := List.mem_filterMap.mp hp
  split at hfe
  case isTrue h3 =>
    split at hfe
    · obtain rfl := Option.some.inj hfe
      have hne : e.2 ≠ [] := by
        intro h
        rw [h] at h3
        simp at h3
      have hdist : getCrimeTypeDistribution e.2 ≠ [] :=
        getCrimeTypeDistribution_ne_nil hne
      have hjne : jsEntries (getCrimeTypeDistribution e.2) ≠ [] := by
        intro h
        have hl := (jsEntries_perm (getCrimeTypeDistribution e.2)).length_eq
        rw [h] at hl
        exact hdist (List.length_eq_zero.mp hl.symm)
      obtain ⟨e0, es0, hcons⟩ := List.exists_cons_of_ne_nil hjne
      obtain ⟨l1, l2, hdec, hle, hlt⟩ := foldl_pickMax_decomp es0 e0
      refine ⟨e.2, es0.foldl (fun a b => if a.2 > b.2 then a else b) e0, l1, l2,
        he, h3, rfl, ?_, ?_, hle, hlt⟩
      · simp only [mkHotspotPattern, classifyHotspotType, hcons, reduceMaxEntry]
      · rw [hcons]
        exact hdec
    · exact absurd hfe (by simp)
  case isFalse => exact absurd hfe (by simp)

/-- Witness for the amended C9: the tie fixture emits one hotspot pattern and
the amended characterization holds for it. -/
theorem spec_C9_witness :
    ∃ p ∈ detectCrimeHotspots fixtureTie,
      ∃ (group : List Incident) (entry : String × Nat)
        (l1 l2 : List (String × Nat)),
        (p.location, group) ∈ jsEntries (groupByLocation fixtureTie) ∧
        3 ≤ group.length ∧
        p.relatedIncidents = group.map (fun inc => inc._id) ∧
        p.subtype = some entry.1 ∧
        jsEntries (getCrimeTypeDistribution group) = l1 ++ entry :: l2 ∧
        (∀ x ∈ l1, x.2 ≤ entry.2) ∧
        (∀ x ∈ l2, x.2 < entry.2) := by
  have hev : detectCrimeHotspots fixtureTie = [mkHotspotPattern "a" fixtureTie] := by
    have hg : jsEntries (groupByLocation fixtureTie) = [("a", fixtureTie)] := by decide
    have hspan : calculateTimeSpan fixtureTie = 3 := by decide
    have hsm : severityMap "critical" = 4 := by decide
    have hsev : calculateAverageSeverity fixtureTie = 4 := by
      simp only [calculateAverageSeverity, fixtureTie, List.foldl_cons, List.foldl_nil,
        hsm, List.length_cons, List.length_nil]
      norm_num
    have hlen : fixtureTie.length = 4 := by decide
    simp only [detectCrimeHotspots, hg, List.filterMap_cons, List.filterMap_nil,
      hotspotConfidenceOf, calculateCrimeDensity, calculateTimeSpread, hspan,
      hsev, calculateHotspotConfidence, hlen]
    norm_num [max_def, min_def]
  refine ⟨mkHotspotPattern "a" fixtureTie, ?_, ?_⟩
  · rw [hev]
    exact List.mem_singleton.mpr rfl
  · exact spec_C9 fixtureTie (mkHotspotPattern "a" fixtureTie)
      (by rw [hev]; exact List.mem_singleton.mpr rfl)

/-! ## Claim C7: the predictive hotspot detector -/

/-- **C7** — The predictive detector considers only incidents from the most
recent 14 days of the filtered set (the `daysDiff ≤ 14` filter), groups them
by location, estimates a trend for every group with at least 2 incidents,
emits a pattern exactly when the trend is judged increasing and the trend's
own confidence is ≥ 0.6, and sets the emitted pattern's confidence to
`trendConfidence × 0.8`. -/
theorem spec_C7 (now : Int) (incidents : List Incident) :
    (∀ p ∈ predictFutureHotspots now incidents,
      ∃ e ∈ jsEntries (analyzeTrends (recentWithinDays now 14 incidents)),
        e.2.isIncreasing = true ∧ (0.6 : ℚ) ≤ e.2.confidence ∧
        p.confidence = e.2.confidence * 0.8 ∧
        p.relatedIncidents = e.2.incidents.map (fun inc => inc._id) ∧
        ∃ g ∈ jsEntries (groupByLocation (recentWithinDays now 14 incidents)),
          2 ≤ g.2.length ∧ e.2.incidents = g.2 ∧
          e.2.confidence = min 0.8 ((g.2.length : ℚ) / 5) ∧
          ∀ i ∈ g.2, i ∈ recentWithinDays now 14 incidents) ∧
    (∀ e ∈ jsEntries (analyzeTrends (recentWithinDays now 14 incidents)),
      e.2.isIncreasing = true → (0.6 : ℚ) ≤ e.2.confidence →
      mkPredictivePattern e.1 e.2 ∈ predictFutureHotspots now incidents) ∧
    (∀ g ∈ jsEntries (groupByLocation (recentWithinDays now 14 incidents)),
      2 ≤ g.2.length →
      ((g.1, { currentCount := g.2.length, isIncreasing := true,
               confidence := min 0.8 ((g.2.length : ℚ) / 5),
               growthRate := 0.1, incidents := g.2 }) : String × Trend) ∈
        analyzeTrends (recentWithinDays now 14 incidents)) := by
  refine ⟨?_, ?_, ?_⟩
  · intro p hp
    rw [predictFutureHotspots] at hp
    obtain ⟨e, he, hfe⟩ := List.mem_filterMap.mp hp
    split at hfe
    case isTrue hcond =>
      rw [Bool.and_eq_true] at hcond
      obtain ⟨hinc, hdec⟩ := hcond
      obtain rfl := Option.some.inj hfe
      refine ⟨e, he, hinc, of_decide_eq_true hdec, rfl, rfl, ?_⟩
      have he2 := mem_jsEntries.mp he
      rw [analyzeTrends] at he2
      obtain ⟨g, hg, hfg⟩ := List.mem_filterMap.mp he2
      split at hfg
      case isTrue h2 =>
        obtain heq := Option.some.inj hfg
        refine ⟨g, hg, h2, ?_, ?_, ?_⟩
        · rw [← heq]
        · rw [← heq]
        · exact fun i hi =>
            (jsGroupBy_sound _ _ g (mem_jsEntries.mp hg)).2 i hi
      case isFalse => exact absurd hfg (by simp)
    case isFalse => exact absurd hfe (by simp)
  · intro e he hinc hconf
    rw [predictFutureHotspots]
    refine List.mem_filterMap.mpr ⟨e, he, ?_⟩
    have hcond : (e.2.isIncreasing && decide ((0.6 : ℚ) ≤ e.2.confidence)) = true := by
      rw [Bool.and_eq_true]
      exact ⟨hinc, decide_eq_true hconf⟩
    rw [if_pos hcond]
  · intro g hg h2
    rw [analyzeTrends]
    exact List.mem_filterMap.mpr ⟨g, hg, by rw [if_pos h2]⟩

/-- Witness for C7: on the 3-incident fixture at `now = 0` every incident is
within 14 days, the one location group has ≥ 2 incidents, and the detector's
trend for it is as stated. -/
theorem spec_C7_witness :
    recentWithinDays 0 14 fixtureThree = fixtureThree ∧
    ("a", fixtureThree) ∈ jsEntries (groupByLocation (recentWithinDays 0 14 fixtureThree)) ∧
    2 ≤ fixtureThree.length ∧
    (("a", { currentCount := fixtureThree.length, isIncreasing := true,
             confidence := min 0.8 ((fixtureThree.length : ℚ) / 5),
             growthRate := 0.1, incidents := fixtureThree }) : String × Trend) ∈
      analyzeTrends (recentWithinDays 0 14 fixtureThree) := by
  have hrec : recentWithinDays 0 14 fixtureThree = fixtureThree := by
    simp only [recentWithinDays, fixtureThree, dtMk, List.filter]
    norm_num
  have hmem : ("a", fixtureThree) ∈
      jsEntries (groupByLocation (recentWithinDays 0 14 fixtureThree)) := by
    rw [hrec]
    decide
  exact ⟨hrec, hmem, by decide,
    (spec_C7 0 fixtureThree).2.2 ("a", fixtureThree) hmem (by decide)⟩

/-! ## Claim C8: hourly temporal analysis -/

theorem countDescLe_total (a b : Nat × Nat) :
    countDescLe a b = true ∨ countDescLe b a = true := by
  simp only [countDescLe, decide_eq_true_eq]
  omega

theorem countDescLe_trans (a b c : Nat × Nat) :
    countDescLe a b = true → countDescLe b c = true → countDescLe a c = true := by
  simp only [countDescLe, decide_eq_true_eq]
  omega

/-- **C8** — Hourly analysis buckets the full filtered set by hour-of-day,
considers only the top 3 buckets by count (every emitted bucket has at most 2
buckets with strictly greater counts), emits one pattern per selected bucket
with count ≥ 3 whose confidence is `min 0.9 (count/total·4)` and whose related
incidents are exactly the bucket's members; and on the 10-incident scenario
with 5 incidents at hour 2 an hourly pattern is emitted with
`statistics.peakHour = 2` and `statistics.percentage = "50.0"`. -/
theorem spec_C8 :
    (∀ incidents : List Incident,
      (detectHourlyPatterns incidents).length ≤ 3 ∧
      (∀ p ∈ detectHourlyPatterns incidents, ∃ hour count : Nat,
        (hour, count) ∈ (sortLe countDescLe (hourEntries incidents)).take 3 ∧
        count = hourCount incidents hour ∧ 3 ≤ count ∧
        p = mkHourlyPattern incidents hour count ∧
        p.confidence = min 0.9 ((count : ℚ) / incidents.length * 4) ∧
        p.relatedIncidents =
          ((incidents.filter fun inc => (inc.dateTime.getHours).val == hour).map
            fun inc => inc._id) ∧
        ((hourEntries incidents).filter fun e => decide (count < e.2)).length ≤ 2) ∧
      (∀ e ∈ (sortLe countDescLe (hourEntries incidents)).take 3, 3 ≤ e.2 →
        mkHourlyPattern incidents e.1 e.2 ∈ detectHourlyPatterns incidents)) ∧
    (∃ p ∈ detectHourlyPatterns fixtureHour,
      p.statistics.lookup "peakHour" = some (.num 2) ∧
      p.statistics.lookup "percentage" = some (.str "50.0")) ∧
    fixtureHour.length = 10 ∧ hourCount fixtureHour 2 = 5 := by
  have main : ∀ incidents : List Incident,
      (detectHourlyPatterns incidents).length ≤ 3 ∧
      (∀ p ∈ detectHourlyPatterns incidents, ∃ hour count : Nat,
        (hour, count) ∈ (sortLe countDescLe (hourEntries incidents)).take 3 ∧
        count = hourCount incidents hour ∧ 3 ≤ count ∧
        p = mkHourlyPattern incidents hour count ∧
        p.confidence = min 0.9 ((count : ℚ) / incidents.length * 4) ∧
        p.relatedIncidents =
          ((incidents.filter fun inc => (inc.dateTime.getHours).val == hour).map
            fun inc => inc._id) ∧
        ((hourEntries incidents).filter fun e => decide (count < e.2)).length ≤ 2) ∧
      (∀ e ∈ (sortLe countDescLe (hourEntries incidents)).take 3, 3 ≤ e.2 →
        mkHourlyPattern incidents e.1 e.2 ∈ detectHourlyPatterns incidents) := by
    intro incidents
    refine ⟨?_, ?_, ?_⟩
    · rw [detectHourlyPatterns]
      exact le_trans (List.length_filterMap_le _ _) (List.length_take_le _ _)
    · intro p hp
      rw [detectHourlyPatterns] at hp
      obtain ⟨e, he, hfe⟩ := List.mem_filterMap.mp hp
      split at hfe
      case isTrue h3 =>
        obtain rfl := Option.some.inj hfe
        have heS : e ∈ sortLe countDescLe (hourEntries incidents) :=
          List.take_subset _ _ he
        have heE : e ∈ hourEntries incidents := mem_sortLe.mp heS
        rw [hourEntries] at heE
        obtain ⟨h, hh, hfh⟩ := List.mem_filterMap.mp heE
        split at hfh
        case isTrue hcnt =>
          obtain heq := Option.some.inj hfh
          have he1 : e.1 = h := by rw [← heq]
          have he2 : e.2 = hourCount incidents h := by rw [← heq]
          refine ⟨e.1, e.2, by simpa using he, by rw [he1, he2], h3, by
            obtain ⟨a, b⟩ := e
            rfl, rfl, rfl, ?_⟩
          have hsorted := sortLe_pairwise countDescLe_total countDescLe_trans
            (hourEntries incidents)
          have hpre := pairwise_filter_isPrefix
            (P := fun x => decide (e.2 < x.2))
            (R := fun a b => countDescLe a b = true)
            (fun a b hab hPb => by
              simp only [countDescLe, decide_eq_true_eq] at hab hPb ⊢
              omega)
            _ hsorted
          have hlt := filter_length_lt_of_mem_take hpre he
            (by simp)
          have hpermf := ((sortLe_perm countDescLe (hourEntries incidents)).filter
            (fun x => decide (e.2 < x.2))).length_eq
          omega
        case isFalse => exact absurd hfh (by simp)
      case isFalse => exact absurd hfe (by simp)
    · intro e he h3
      rw [detectHourlyPatterns]
      refine List.mem_filterMap.mpr ⟨e, he, ?_⟩
      rw [if_pos h3]
  refine ⟨main, ?_, by decide, by decide⟩
  have hent : hourEntries fixtureHour = [(2, 5), (5, 3), (7, 2)] := by decide
  have hsort : sortLe countDescLe [((2 : Nat), (5 : Nat)), (5, 3), (7, 2)] =
      [(2, 5), (5, 3), (7, 2)] := by decide
  have hmem : mkHourlyPattern fixtureHour 2 5 ∈ detectHourlyPatterns fixtureHour := by
    rw [detectHourlyPatterns, hent, hsort]
    refine List.mem_filterMap.mpr ⟨(2, 5), by simp, ?_⟩
    rw [if_pos (by norm_num)]
  refine ⟨mkHourlyPattern fixtureHour 2 5, hmem, ?_, ?_⟩
  · show some (StatVal.num ((2 : Nat) : ℚ)) = some (StatVal.num 2)
    norm_num
  · have hfl : (⌊(50 : ℚ) * 10 + 1 / 2⌋ : Int) = 500 := by
      rw [show (50 : ℚ) * 10 + 1 / 2 = 1001 / 2 by norm_num, Int.floor_eq_iff]
      norm_num
    have hfix50 : jsToFixed1 50 = "50.0" := by
      simp only [jsToFixed1, hfl]
      decide
    have harg : (((5 : Nat) : ℚ) / (fixtureHour.length : ℚ) * 100) = 50 := by
      norm_num [fixtureHour]
    show some (StatVal.str
      (jsToFixed1 (((5 : Nat) : ℚ) / (fixtureHour.length : ℚ) * 100))) =
      some (StatVal.str "50.0")
    rw [harg, hfix50]

/-- Witness for C8: the hourly detector emits at most 3 patterns, and the
scenario fixture has 10 incidents with 5 at hour 2. -/
theorem spec_C8_witness :
    (detectHourlyPatterns fixtureHour).length ≤ 3 ∧
    fixtureHour.length = 10 ∧ hourCount fixtureHour 2 = 5 :=
  ⟨(spec_C8.1 fixtureHour).1, spec_C8.2.2⟩

/-! ## Claim C1: well-formedness of every returned pattern -/

theorem severityMap_bounds (s : String) :
    1 ≤ severityMap s ∧ severityMap s ≤ 4 := by
  unfold severityMap
  repeat' split
  all_goals norm_num

theorem sevFoldl_bounds (l : List Incident) :
    ∀ acc : ℚ,
      acc + l.length ≤ l.foldl (fun sum inc => sum + severityMap inc.severity) acc ∧
      l.foldl (fun sum inc => sum + severityMap inc.severity) acc ≤ acc + 4 * l.length := by
  induction l with
  | nil => intro acc; simp
  | cons x xs ih =>
    intro acc
    rw [List.foldl_cons]
    obtain ⟨h1, h2⟩ := ih (acc + severityMap x.severity)
    obtain ⟨hs1, hs2⟩ := severityMap_bounds x.severity
    constructor
    · push_cast [List.length_cons]
      push_cast at h1
      linarith
    · push_cast [List.length_cons]
      push_cast at h2
      linarith

theorem calculateAverageSeverity_bounds {incidents : List Incident}
    (h : incidents ≠ []) :
    1 ≤ calculateAverageSeverity incidents ∧ calculateAverageSeverity incidents ≤ 4 := by
  have hlen : 0 < (incidents.length : ℚ) := by
    exact_mod_cast List.length_pos.mpr h
  obtain ⟨h1, h2⟩ := sevFoldl_bounds incidents 0
  rw [zero_add] at h1 h2
  simp only [calculateAverageSeverity]
  constructor
  · rw [le_div_iff hlen]
    linarith
  · rw [div_le_iff hlen]
    linarith

theorem calculateCrimeDensity_nonneg (incidents : List Incident) :
    0 ≤ calculateCrimeDensity incidents := by
  simp only [calculateCrimeDensity]
  exact div_nonneg (by positivity) (le_trans zero_le_one (le_max_left _ _))

theorem calculateHotspotConfidence_bounds (f : HotspotFactors)
    (hd : 0 ≤ f.density) (hs1 : 1 ≤ f.severity) (hs2 : f.severity ≤ 4) :
    0 ≤ calculateHotspotConfidence f ∧ calculateHotspotConfidence f ≤ 1 := by
  have hc1 : 0 ≤ min 1 ((f.incidentCount : ℚ) / 10) :=
    le_min (by norm_num) (by positivity)
  have hc2 : min 1 ((f.incidentCount : ℚ) / 10) ≤ 1 := min_le_left _ _
  have hd1 : 0 ≤ min 1 (f.density / 2) :=
    le_min (by norm_num) (div_nonneg hd (by norm_num))
  have hd2 : min 1 (f.density / 2) ≤ 1 := min_le_left _ _
  simp only [calculateHotspotConfidence]
  by_cases hts : (0 : Int) < f.timeSpread
  · rw [if_pos hts]
    have ht0 : (0 : ℚ) ≤ (f.timeSpread : ℚ) := by exact_mod_cast le_of_lt hts
    have ht1 : 0 ≤ min 1 ((f.timeSpread : ℚ) / (30 * 24 * 60 * 60 * 1000)) :=
      le_min (by norm_num) (div_nonneg ht0 (by norm_num))
    have ht2 : min 1 ((f.timeSpread : ℚ) / (30 * 24 * 60 * 60 * 1000)) ≤ 1 :=
      min_le_left _ _
    constructor <;> linarith
  · rw [if_neg hts]
    constructor <;> linarith

theorem mem_hourEntries {incidents : List Incident} {e : Nat × Nat}
    (he : e ∈ hourEntries incidents) : e.2 = hourCount incidents e.1 := by
  rw [hourEntries] at he
  obtain ⟨h, _, hfh⟩ := List.mem_filterMap.mp he
  split at hfh
  · obtain heq := Option.some.inj hfh
    rw [← heq]
  · exact absurd hfh (by simp)

theorem mem_dayEntries {incidents : List Incident} {e : Nat × Nat}
    (he : e ∈ dayEntries incidents) : e.2 = dayCount incidents e.1 := by
  rw [dayEntries] at he
  obtain ⟨h, _, hfh⟩ := List.mem_filterMap.mp he
  split at hfh
  · obtain heq := Option.some.inj hfh
    rw [← heq]
  · exact absurd hfh (by simp)

theorem mem_monthEntries {incidents : List Incident} {e : Nat × Nat}
    (he : e ∈ monthEntries incidents) : e.2 = monthCount incidents e.1 := by
  rw [monthEntries] at he
  obtain ⟨h, _, hfh⟩ := List.mem_filterMap.mp he
  split at hfh
  · obtain heq := Option.some.inj hfh
    rw [← heq]
  · exact absurd hfh (by simp)

theorem foldl_pick_mem (es : List (α × Nat)) (e : α × Nat) :
    es.foldl (fun a b => if a.2 > b.2 then a else b) e ∈ e :: es := by
  obtain ⟨l1, l2, hdec, -, -⟩ := foldl_pickMax_decomp es e
  rw [hdec]
  exact List.mem_append_right _ (List.mem_cons_self _ _)

theorem reduceMaxEntry_mem {l : List (α × Nat)} {r : α × Nat}
    (h : reduceMaxEntry l = some r) : r ∈ l := by
  cases l with
  | nil => exact absurd h (by simp [reduceMaxEntry])
  | cons e es =>
    rw [reduceMaxEntry] at h
    obtain rfl := Option.some.inj h
    exact foldl_pick_mem es e

theorem map_id_subset {g incidents : List Incident}
    (hsub : ∀ i ∈ g, i ∈ incidents) :
    ∀ i ∈ g.map (fun inc => inc._id), i ∈ incidents.map (fun inc => inc._id) := by
  intro i hi
  obtain ⟨inc, hinc, rfl⟩ := List.mem_map.mp hi
  exact List.mem_map.mpr ⟨inc, hsub inc hinc, rfl⟩

theorem map_id_ne_nil {g : List Incident} (h : g ≠ []) :
    g.map (fun inc => inc._id) ≠ [] := by
  intro hmap
  exact h (List.map_eq_nil.mp hmap)

theorem detectCrimeHotspots_ok (incidents : List Incident) :
    ∀ p ∈ detectCrimeHotspots incidents, patternOk incidents p := by
  intro p hp
  rw [detectCrimeHotspots] at hp
  obtain ⟨e, he, hfe⟩ := List.mem_filterMap.mp hp
  split at hfe
  · split at hfe
    · obtain rfl := Option.some.inj hfe
      obtain ⟨hne, hsub⟩ := jsGroupBy_sound _ _ e (mem_jsEntries.mp he)
      obtain ⟨hb1, hb2⟩ := calculateHotspotConfidence_bounds
        { incidentCount := e.2.length,
          density := calculateCrimeDensity e.2,
          severity := calculateAverageSeverity e.2,
          timeSpread := calculateTimeSpread e.2 }
        (calculateCrimeDensity_nonneg e.2)
        (calculateAverageSeverity_bounds hne).1
        (calculateAverageSeverity_bounds hne).2
      exact ⟨hb1, hb2, map_id_ne_nil hne, map_id_subset hsub⟩
    · exact absurd hfe (by simp)
  · exact absurd hfe (by simp)

theorem detectHourlyPatterns_ok (incidents : List Incident) :
    ∀ p ∈ detectHourlyPatterns incidents, patternOk incidents p := by
  intro p hp
  rw [detectHourlyPatterns] at hp
  obtain ⟨e, he, hfe⟩ := List.mem_filterMap.mp hp
  split at hfe
  case isTrue h3 =>
    obtain rfl := Option.some.inj hfe
    have hcnt : e.2 = hourCount incidents e.1 :=
      mem_hourEntries (mem_sortLe.mp (List.take_subset _ _ he))
    have hfsub : ∀ i ∈ incidents.filter
        (fun inc => (inc.dateTime.getHours).val == e.1), i ∈ incidents :=
      fun i hi => List.mem_of_mem_filter hi
    have hfne : incidents.filter
        (fun inc => (inc.dateTime.getHours).val == e.1) ≠ [] := by
      intro hnil
      rw [hcnt, hourCount, hnil] at h3
      simp at h3
    refine ⟨le_min (by norm_num) (by positivity), le_trans (min_le_left _ _) (by norm_num),
      map_id_ne_nil hfne, map_id_subset hfsub⟩
  case isFalse => exact absurd hfe (by simp)

theorem detectDailyPatterns_ok (incidents : List Incident) :
    ∀ p ∈ detectDailyPatterns incidents, patternOk incidents p := by
  intro p hp
  rw [detectDailyPatterns] at hp
  obtain ⟨e, he, hfe⟩ := List.mem_filterMap.mp hp
  split at hfe
  case isTrue h3 =>
    obtain rfl := Option.some.inj hfe
    have hcnt : e.2 = dayCount incidents e.1 :=
      mem_dayEntries (mem_sortLe.mp (List.take_subset _ _ he))
    have hfsub : ∀ i ∈ incidents.filter
        (fun inc => (inc.dateTime.getDay).val == e.1), i ∈ incidents :=
      fun i hi => List.mem_of_mem_filter hi
    have hfne : incidents.filter
        (fun inc => (inc.dateTime.getDay).val == e.1) ≠ [] := by
      intro hnil
      rw [hcnt, dayCount, hnil] at h3
      simp at h3
    refine ⟨le_min (by norm_num) (by positivity), le_trans (min_le_left _ _) (by norm_num),
      map_id_ne_nil hfne, map_id_subset hfsub⟩
  case isFalse => exact absurd hfe (by simp)

theorem detectSeasonalPatterns_ok (incidents : List Incident) :
    ∀ p ∈ detectSeasonalPatterns incidents, patternOk incidents p := by
  intro p hp
  rw [detectSeasonalPatterns] at hp
  split at hp
  · exact absurd hp (by simp)
  case h_2 maxMonth hred =>
    split at hp
    case isTrue h4 =>
      obtain rfl := List.mem_singleton.mp hp
      have hcnt : maxMonth.2 = monthCount incidents maxMonth.1 :=
        mem_monthEntries (reduceMaxEntry_mem hred)
      have hfsub : ∀ i ∈ incidents.filter
          (fun inc => (inc.dateTime.getMonth).val == maxMonth.1), i ∈ incidents :=
        fun i hi => List.mem_of_mem_filter hi
      have hfne : incidents.filter
          (fun inc => (inc.dateTime.getMonth).val == maxMonth.1) ≠ [] := by
        intro hnil
        rw [hcnt, monthCount, hnil] at h4
        simp at h4
      refine ⟨le_min (by norm_num) (by positivity),
        le_trans (min_le_left _ _) (by norm_num),
        map_id_ne_nil hfne, map_id_subset hfsub⟩
    case isFalse => exact absurd hp (by simp)

theorem detectCrimeSeries_ok (incidents : List Incident) :
    ∀ p ∈ detectCrimeSeries incidents, patternOk incidents p := by
  intro p hp
  rw [detectCrimeSeries] at hp
  obtain ⟨e, he, hmem⟩ := List.mem_flatMap.mp hp
  split at hmem
  case isTrue h3 =>
    obtain ⟨cluster, hcl, hfc⟩ := List.mem_filterMap.mp hmem
    rw [findCrimeClusters, List.mem_singleton] at hcl
    subst hcl
    rw [if_pos h3] at hfc
    split at hfc
    · obtain rfl := Option.some.inj hfc
      obtain ⟨hne, hsub⟩ := jsGroupBy_sound _ _ e (mem_jsEntries.mp he)
      refine ⟨?_, le_trans (min_le_left _ _) (by norm_num),
        map_id_ne_nil hne, map_id_subset hsub⟩
      exact le_min (by norm_num) (by positivity)
    · exact absurd hfc (by simp)
  case isFalse => exact absurd hmem (by simp)

theorem performGeographicClustering_ok (incidents : List Incident) :
    ∀ p ∈ performGeographicClustering incidents, patternOk incidents p := by
  intro p hp
  rw [performGeographicClustering] at hp
  obtain ⟨cluster, hcl, hfc⟩ := List.mem_filterMap.mp hp
  rw [clusterByDistance, List.mem_singleton] at hcl
  subst hcl
  split at hfc
  case isTrue h4 =>
    split at hfc
    · obtain rfl := Option.some.inj hfc
      have hine : incidents ≠ [] := by
        intro hnil
        rw [hnil] at h4
        simp at h4
      refine ⟨le_min (by norm_num) (by positivity),
        le_trans (min_le_left _ _) (by norm_num), ?_, ?_⟩
      · simp only [mkClusterPattern, ne_eq, List.map_eq_nil, List.map_eq_nil]
        exact hine
      · intro i hi
        simp only [mkClusterPattern, List.map_map] at hi
        obtain ⟨inc, hinc, rfl⟩ := List.mem_map.mp hi
        exact List.mem_map.mpr ⟨inc, hinc, rfl⟩
    · exact absurd hfc (by simp)
  case isFalse => exact absurd hfc (by simp)

theorem predictFutureHotspots_ok (now : Int) (incidents : List Incident) :
    ∀ p ∈ predictFutureHotspots now incidents, patternOk incidents p := by
  intro p hp
  rw [predictFutureHotspots] at hp
  obtain ⟨e, he, hfe⟩ := List.mem_filterMap.mp hp
  split at hfe
  case isTrue hcond =>
    rw [Bool.and_eq_true] at hcond
    obtain ⟨-, hdec⟩ := hcond
    have hconf : (0.6 : ℚ) ≤ e.2.confidence := of_decide_eq_true hdec
    obtain rfl := Option.some.inj hfe
    have he2 := mem_jsEntries.mp he
    rw [analyzeTrends] at he2
    obtain ⟨g, hg, hfg⟩ := List.mem_filterMap.mp he2
    split at hfg
    case isTrue h2 =>
      obtain heq := Option.some.inj hfg
      obtain ⟨hne, hsub⟩ := jsGroupBy_sound _ _ g (mem_jsEntries.mp hg)
      have hinc : e.2.incidents = g.2 := by rw [← heq]
      have hcup : e.2.confidence ≤ 0.8 := by
        have : e.2.confidence = min 0.8 ((g.2.length : ℚ) / 5) := by rw [← heq]
        rw [this]
        exact min_le_left _ _
      refine ⟨?_, ?_, ?_, ?_⟩
      · show (0 : ℚ) ≤ e.2.confidence * 0.8
        linarith
      · show e.2.confidence * 0.8 ≤ 1
        linarith
      · simp only [mkPredictivePattern, hinc]
        exact map_id_ne_nil hne
      · simp only [mkPredictivePattern, hinc]
        refine map_id_subset (fun i hi => ?_)
        have hrec : i ∈ recentWithinDays now 14 incidents := hsub i hi
        rw [recentWithinDays] at hrec
        exact List.mem_of_mem_filter hrec
    case isFalse => exact absurd hfg (by simp)
  case isFalse => exact absurd hfe (by simp)

theorem assessAreaRisk_ok (now : Int) (incidents : List Incident) :
    ∀ p ∈ assessAreaRisk now incidents, patternOk incidents p := by
  intro p hp
  rw [assessAreaRisk] at hp
  obtain ⟨e, he, hfe⟩ := List.mem_filterMap.mp hp
  split at hfe
  case isTrue hrs =>
    obtain rfl := Option.some.inj hfe
    obtain ⟨hne, hsub⟩ := jsGroupBy_sound _ _ e (mem_jsEntries.mp he)
    refine ⟨le_min (by norm_num) (by linarith), le_trans (min_le_left _ _) (by norm_num),
      map_id_ne_nil hne, map_id_subset hsub⟩
  case isFalse => exact absurd hfe (by simp)

theorem allDetectorPatterns_ok (now : Int) (incidents : List Incident) :
    ∀ p ∈ allDetectorPatterns now incidents, patternOk incidents p := by
  intro p hp
  rw [allDetectorPatterns] at hp
  rcases List.mem_append.mp hp with hp | hp
  rcases List.mem_append.mp hp with hp | hp
  rcases List.mem_append.mp hp with hp | hp
  rcases List.mem_append.mp hp with hp | hp
  rcases List.mem_append.mp hp with hp | hp
  · exact detectCrimeHotspots_ok incidents p hp
  · rw [analyzeTemporalPatterns] at hp
    rcases List.mem_append.mp hp with hp | hp
    rcases List.mem_append.mp hp with hp | hp
    · exact detectHourlyPatterns_ok incidents p hp
    · exact detectDailyPatterns_ok incidents p hp
    · exact detectSeasonalPatterns_ok incidents p hp
  · exact detectCrimeSeries_ok incidents p hp
  · exact performGeographicClustering_ok incidents p hp
  · exact predictFutureHotspots_ok now incidents p hp
  · exact assessAreaRisk_ok now incidents p hp

/-- **C1** — For every successful run, every pattern in the returned list has
a confidence in `[0,1]` that is at least the caller's `minConfidence`, and a
non-empty related-incidents list whose identifiers are all drawn from the
filtered incident set of that run. -/
theorem spec_C1 (now : Int) (timeRange : String) (incidents : List Incident)
    (minConfidence : ℚ)
    (hs : (runComprehensiveAnalysis now timeRange incidents minConfidence).success = true) :
    ∀ p ∈ (runComprehensiveAnalysis now timeRange incidents minConfidence).patterns,
      0 ≤ p.confidence ∧ p.confidence ≤ 1 ∧ minConfidence ≤ p.confidence ∧
      p.relatedIncidents ≠ [] ∧
      ∀ i ∈ p.relatedIncidents, i ∈ incidents.map (fun inc => inc._id) := by
  intro p hp
  rcases Nat.lt_or_ge incidents.length 3 with hlen | hlen
  · rw [runComprehensiveAnalysis, if_pos hlen] at hs
    exact absurd hs (by simp)
  · rw [runComprehensiveAnalysis, if_neg (Nat.not_lt.mpr hlen)] at hp
    replace hp : p ∈ sortLe patternLe
        ((allDetectorPatterns now incidents).filter fun pattern =>
          decide (minConfidence ≤ pattern.confidence)) := hp
    rw [mem_sortLe] at hp
    obtain ⟨hmem, hdec⟩ := List.mem_filter.mp hp
    obtain ⟨h0, h1, hne, hsub⟩ := allDetectorPatterns_ok now incidents p hmem
    exact ⟨h0, h1, of_decide_eq_true hdec, hne, hsub⟩

/-- Witness for C1: the 3-incident fixture yields a successful run; the
guarantees hold for each of its returned patterns. -/
theorem spec_C1_witness :
    (runComprehensiveAnalysis 0 "30days" fixtureThree 0.5).success = true ∧
    ∀ p ∈ (runComprehensiveAnalysis 0 "30days" fixtureThree 0.5).patterns,
      0 ≤ p.confidence ∧ p.confidence ≤ 1 ∧ (0.5 : ℚ) ≤ p.confidence ∧
      p.relatedIncidents ≠ [] ∧
      ∀ i ∈ p.relatedIncidents, i ∈ fixtureThree.map (fun inc => inc._id) :=
  ⟨rfl, spec_C1 0 "30days" fixtureThree 0.5 rfl⟩

/-! ## Claim C2: filtering, ranking and stability of the returned list -/

theorem patternLe_total (a b : Pattern) :
    patternLe a b = true ∨ patternLe b a = true := by
  unfold patternLe
  by_cases h : a.confidence = b.confidence
  · rw [if_pos h, if_pos h.symm]
    simp only [decide_eq_true_eq]
    omega
  · rw [if_neg h, if_neg (Ne.symm h)]
    simp only [decide_eq_true_eq]
    exact le_total b.confidence a.confidence

theorem patternLe_trans (a b c : Pattern) :
    patternLe a b = true → patternLe b c = true → patternLe a c = true := by
  unfold patternLe
  by_cases hab : a.confidence = b.confidence <;>
    by_cases hbc : b.confidence = c.confidence
  · rw [if_pos hab, if_pos hbc, if_pos (hab.trans hbc)]
    simp only [decide_eq_true_eq]
    omega
  · rw [if_pos hab, if_neg hbc, if_neg (fun h => hbc (hab.symm.trans h))]
    simp only [decide_eq_true_eq]
    intro _ h2
    rw [hab]
    exact h2
  · rw [if_neg hab, if_pos hbc, if_neg (fun h => hab (h.trans hbc.symm))]
    simp only [decide_eq_true_eq]
    intro h1 _
    rw [← hbc]
    exact h1
  · rw [if_neg hab, if_neg hbc]
    simp only [decide_eq_true_eq]
    intro h1 h2
    by_cases hac : a.confidence = c.confidence
    · rw [if_pos hac]
      exfalso
      apply hab
      have h3 : a.confidence ≤ b.confidence := by
        rw [hac]
        exact h2
      exact le_antisymm h3 h1
    · rw [if_neg hac]
      simp only [decide_eq_true_eq]
      exact le_trans h2 h1

theorem patternLe_eq_true_iff (a b : Pattern) :
    patternLe a b = true ↔
      (b.confidence < a.confidence ∨
        (a.confidence = b.confidence ∧
          b.relatedIncidents.length ≤ a.relatedIncidents.length)) := by
  unfold patternLe
  by_cases h : a.confidence = b.confidence
  · rw [if_pos h]
    simp only [decide_eq_true_eq]
    constructor
    · intro hl
      exact Or.inr ⟨h, hl⟩
    · rintro (hlt | ⟨-, hl⟩)
      · exact absurd h (ne_of_gt hlt)
      · exact hl
  · rw [if_neg h]
    simp only [decide_eq_true_eq]
    constructor
    · intro hle
      exact Or.inl (lt_of_le_of_ne hle (fun heq => h heq.symm))
    · rintro (hlt | ⟨heq, -⟩)
      · exact le_of_lt hlt
      · exact absurd heq h

/-- **C2** — For every successful run, the returned list is a permutation of
the concatenation of the six detectors' outputs with the sub-`minConfidence`
patterns discarded, it is sorted by confidence descending with ties broken by
related-incidents count descending, and the sort is stable: patterns that
agree on both keys appear in their original detector-emission order. -/
theorem spec_C2 (now : Int) (timeRange : String) (incidents : List Incident)
    (minConfidence : ℚ)
    (hs : (runComprehensiveAnalysis now timeRange incidents minConfidence).success = true) :
    ((runComprehensiveAnalysis now timeRange incidents minConfidence).patterns ~
      ((allDetectorPatterns now incidents).filter fun pattern =>
        decide (minConfidence ≤ pattern.confidence))) ∧
    (runComprehensiveAnalysis now timeRange incidents minConfidence).patterns.Pairwise
      (fun a b => b.confidence < a.confidence ∨
        (a.confidence = b.confidence ∧
          b.relatedIncidents.length ≤ a.relatedIncidents.length)) ∧
    (∀ (c : ℚ) (n : Nat),
      (runComprehensiveAnalysis now timeRange incidents minConfidence).patterns.filter
          (fun p => decide (p.confidence = c) && decide (p.relatedIncidents.length = n)) =
        ((allDetectorPatterns now incidents).filter fun pattern =>
          decide (minConfidence ≤ pattern.confidence)).filter
          (fun p => decide (p.confidence = c) && decide (p.relatedIncidents.length = n))) := by
  rcases Nat.lt_or_ge incidents.length 3 with hlen | hlen
  · rw [runComprehensiveAnalysis, if_pos hlen] at hs
    exact absurd hs (by simp)
  · have hpat : (runComprehensiveAnalysis now timeRange incidents minConfidence).patterns =
        sortLe patternLe ((allDetectorPatterns now incidents).filter fun pattern =>
          decide (minConfidence ≤ pattern.confidence)) := by
      rw [runComprehensiveAnalysis, if_neg (Nat.not_lt.mpr hlen)]
    refine ⟨?_, ?_, ?_⟩
    · rw [hpat]
      exact sortLe_perm _ _
    · rw [hpat]
      exact (sortLe_pairwise patternLe_total patternLe_trans _).imp
        (fun h => (patternLe_eq_true_iff _ _).mp h)
    · intro c n
      rw [hpat]
      refine sortLe_filter_stable (fun a b ha hb => ?_) _
      rw [Bool.and_eq_true] at ha hb
      obtain ⟨hac, han⟩ := ha
      obtain ⟨hbc, hbn⟩ := hb
      have hac := of_decide_eq_true hac
      have han := of_decide_eq_true han
      have hbc := of_decide_eq_true hbc
      have hbn := of_decide_eq_true hbn
      unfold patternLe
      rw [if_pos (hac.trans hbc.symm)]
      rw [decide_eq_true_eq, hbn, han]

/-- Witness for C2 at the 3-incident fixture. -/
theorem spec_C2_witness :
    (runComprehensiveAnalysis 0 "30days" fixtureThree 0.5).success = true ∧
    (((runComprehensiveAnalysis 0 "30days" fixtureThree 0.5).patterns ~
      ((allDetectorPatterns 0 fixtureThree).filter fun pattern =>
        decide ((0.5 : ℚ) ≤ pattern.confidence))) ∧
    (runComprehensiveAnalysis 0 "30days" fixtureThree 0.5).patterns.Pairwise
      (fun a b => b.confidence < a.confidence ∨
        (a.confidence = b.confidence ∧
          b.relatedIncidents.length ≤ a.relatedIncidents.length)) ∧
    (∀ (c : ℚ) (n : Nat),
      (runComprehensiveAnalysis 0 "30days" fixtureThree 0.5).patterns.filter
          (fun p => decide (p.confidence = c) && decide (p.relatedIncidents.length = n)) =
        ((allDetectorPatterns 0 fixtureThree).filter fun pattern =>
          decide ((0.5 : ℚ) ≤ pattern.confidence)).filter
          (fun p => decide (p.confidence = c) && decide (p.relatedIncidents.length = n)))) :=
  ⟨rfl, spec_C2 0 "30days" fixtureThree 0.5 rfl⟩

end CrimeAnalysis
